import Mathlib

/-- Association-list lookup, the model of Python `d.get(k)` / `d[k]`. -/
def findVal (k : String) : List (String × α) → Option α
  | [] => none
  | (k', v) :: l => if k' = k then some v else findVal k l

/-- Association-list update, the model of Python `d[k] = v`: replaces the
first binding of `k`, or appends a new binding (dicts append new keys). -/
def setVal (k : String) (v : α) : List (String × α) → List (String × α)
  | [] => [(k, v)]
  | (k', v') :: l => if k' = k then (k, v) :: l else (k', v') :: setVal k v l

/-- Association-list deletion, the model of Python `del d[k]`. -/
def eraseVal (k : String) : List (String × α) → List (String × α)
  | [] => []
  | (k', v') :: l => if k' = k then l else (k', v') :: eraseVal k l

/-- Key membership in an association list, the model of Python `k in d`. -/
def hasKey (k : String) (l : List (String × α)) : Bool :=
  (findVal k l).isSome

/-- Decimal digits, least significant first, with explicit fuel so the
recursion is structural (and hence evaluates inside the kernel). -/
def natDigitsRevAux : Nat → Nat → List Nat
  | _, 0 => []
  | n, fuel + 1 => if n < 10 then [n] else n % 10 :: natDigitsRevAux (n / 10) fuel

/-- Decimal digits of a natural number, least significant first. -/
def natDigitsRev (n : Nat) : List Nat :=
  natDigitsRevAux n (n + 1)

/-- Decimal rendering of a natural number, the model of Python `str(n)`
inside an f-string. -/
def natToString (n : Nat) : String :=
  ⟨((natDigitsRev n).reverse).map Nat.digitChar⟩

/-- Value of a least-significant-first digit list; used to show that
`natDigitsRev` (hence `natToString`) is injective. -/
def decDigitsVal : List Nat → Nat
  | [] => 0
  | d :: ds => d + 10 * decDigitsVal ds

/-- Placeholder for `hashlib.md5(s.encode()).hexdigest()`.  Only its
functionality (equal inputs yield equal digests) is used; the placeholder
is injective, which under-approximates the collisions of real MD5. -/
def md5_hexdigest (s : String) : String := s

/-- Rational addition, computably.  The standard `Rat.add` is marked
irreducible, which blocks `decide`-style evaluation; `qAdd_eq` below
shows this wrapper is exactly `+`. -/
def qAdd (a b : ℚ) : ℚ := mkRat (a.num * b.den + b.num * a.den) (a.den * b.den)

/-- Rational subtraction, computably; `qSub_eq` shows it is exactly `-`. -/
def qSub (a b : ℚ) : ℚ := mkRat (a.num * b.den - b.num * a.den) (a.den * b.den)

/-- Rational multiplication, computably; `qMul_eq` shows it is `*`. -/
def qMul (a b : ℚ) : ℚ := mkRat (a.num * b.num) (a.den * b.den)

namespace MainPy

/-- `main.py`, class `StorageVirtualNode` (`__init__`): capacities and
usage; `active_transfers` (an unused set in this variant) is omitted. -/
structure StorageVirtualNode where
  id : String
  cpu_capacity : Nat
  memory_capacity : Nat
  storage_capacity : Nat
  bandwidth : Nat
  used_storage : Nat
deriving DecidableEq

/-- `main.py`, `StorageVirtualNode.allocate_storage`: check-and-increment
against `storage_capacity`, returning whether the allocation succeeded. -/
def StorageVirtualNode.allocate_storage (n : StorageVirtualNode) (size : Nat) :
    Bool × StorageVirtualNode :=
  if n.used_storage + size ≤ n.storage_capacity then
    (true, { n with used_storage := n.used_storage + size })
  else
    (false, n)

/-- `main.py`, `StorageVirtualNode.free_storage`:
`used_storage = max(0, used_storage - size)`; on `Nat` the truncated
subtraction is exactly that floor. -/
def StorageVirtualNode.free_storage (n : StorageVirtualNode) (size : Nat) :
    StorageVirtualNode :=
  { n with used_storage := n.used_storage - size }

/-- Result record of `main.py` `get_storage_utilization`. -/
structure Utilization where
  used : Nat
  capacity : Nat
  utilization_percent : ℚ
deriving DecidableEq

/-- `main.py`, `StorageVirtualNode.get_storage_utilization`: divides by
`storage_capacity` with no zero guard, so a zero-capacity node raises
`ZeroDivisionError` (modelled as `none`). -/
def StorageVirtualNode.get_storage_utilization (n : StorageVirtualNode) :
    Option Utilization :=
  if n.storage_capacity = 0 then none
  else some ⟨n.used_storage, n.storage_capacity,
    ((n.used_storage : ℚ) / (n.storage_capacity : ℚ)) * 100⟩

/-- `main.py`, class `FileTransfer` fields. -/
structure FileTransfer where
  file_id : String
  source : String
  target : String
  file_name : String
  file_size : Nat
  chunk_size : Nat
  total_chunks : Nat
  transferred_chunks : Nat
  completed : Bool
deriving DecidableEq

/-- `main.py`, `FileTransfer.__init__`: `total_chunks =
math.ceil(file_size / chunk_size)` (exact ceiling; the Python float
division is exact for the sizes at issue).  The constructor's default
`chunk_size` is `1024*1024`; callers of this model pass it explicitly. -/
def FileTransfer.make (file_id source target file_name : String)
    (file_size chunk_size : Nat) : FileTransfer :=
  ⟨file_id, source, target, file_name, file_size, chunk_size,
    (file_size + chunk_size - 1) / chunk_size, 0, false⟩

/-- `main.py`, `FileTransfer.get_progress`:
`(transferred_chunks / total_chunks) * 100` with no zero guard, so a
transfer with `total_chunks = 0` raises `ZeroDivisionError` (`none`). -/
def FileTransfer.get_progress (t : FileTransfer) : Option ℚ :=
  if t.total_chunks = 0 then none
  else some (((t.transferred_chunks : ℚ) / (t.total_chunks : ℚ)) * 100)

/-- Value of `main.py`'s network `connections` dict:
`{'bandwidth': …, 'utilized': 0}`. -/
structure Connection where
  bandwidth : Nat
  utilized : Nat
deriving DecidableEq

/-- `main.py`, class `StorageVirtualNetwork` state. -/
structure StorageVirtualNetwork where
  nodes : List (String × StorageVirtualNode)
  connections : List (String × Connection)
  active_transfers : List (String × FileTransfer)
  transfer_counter : Nat
deriving DecidableEq

/-- `main.py`, `StorageVirtualNetwork.__init__`. -/
def StorageVirtualNetwork.empty : StorageVirtualNetwork := ⟨[], [], [], 0⟩

/-- `main.py`, `StorageVirtualNetwork.add_node`. -/
def StorageVirtualNetwork.add_node (net : StorageVirtualNetwork)
    (node : StorageVirtualNode) : StorageVirtualNetwork :=
  { net with nodes := setVal node.id node net.nodes }

/-- `main.py`, `StorageVirtualNetwork.connect_nodes`: unconditionally
records `connections[f"{node1_id}-{node2_id}"] = {'bandwidth': bw,
'utilized': 0}`; there is no membership check on the node ids. -/
def StorageVirtualNetwork.connect_nodes (net : StorageVirtualNetwork)
    (node1_id node2_id : String) (bandwidth : Nat) : StorageVirtualNetwork :=
  { net with connections := setVal (node1_id ++ "-" ++ node2_id) ⟨bandwidth, 0⟩ net.connections }

/-- `main.py`, `StorageVirtualNetwork.initiate_file_transfer`: `None` if
either node id is absent; `None` if `target.allocate_storage(file_size)`
fails (in both cases nothing is mutated); otherwise reserves the storage
on the target, mints id `f"transfer_{transfer_counter}"`, bumps the
counter and registers the transfer. -/
def StorageVirtualNetwork.initiate_file_transfer (net : StorageVirtualNetwork)
    (source_node_id target_node_id file_name : String) (file_size : Nat) :
    Option FileTransfer × StorageVirtualNetwork :=
  match findVal source_node_id net.nodes, findVal target_node_id net.nodes with
  | some _, some target =>
    let r := target.allocate_storage file_size
    if r.1 then
      let file_id := "transfer_" ++ natToString net.transfer_counter
      let transfer := FileTransfer.make file_id source_node_id target_node_id
        file_name file_size (1024 * 1024)
      (some transfer,
        { net with
            nodes := setVal target_node_id r.2 net.nodes,
            transfer_counter := net.transfer_counter + 1,
            active_transfers := setVal file_id transfer net.active_transfers })
    else
      (none, net)
  | _, _ => (none, net)

/-- `main.py`, `StorageVirtualNetwork.process_file_transfer`: `(0, True)`
when the id is unknown or the transfer is completed; otherwise advances
the chunk counter by `min(chunks_per_step, remaining)` and flips
`completed` when the counter reaches `total_chunks`.  The source and
target node-id arguments are accepted and ignored, as in the source. -/
def StorageVirtualNetwork.process_file_transfer (net : StorageVirtualNetwork)
    (_source_node_id _target_node_id file_id : String) (chunks_per_step : Nat) :
    (Nat × Bool) × StorageVirtualNetwork :=
  match findVal file_id net.active_transfers with
  | none => ((0, true), net)
  | some transfer =>
    if transfer.completed then ((0, true), net)
    else
      let chunks_remaining := transfer.total_chunks - transfer.transferred_chunks
      let chunks_to_process := min chunks_per_step chunks_remaining
      let t1 := { transfer with
        transferred_chunks := transfer.transferred_chunks + chunks_to_process }
      let t2 := if t1.total_chunks ≤ t1.transferred_chunks then
          { t1 with completed := true } else t1
      ((chunks_to_process, t2.completed),
        { net with active_transfers := setVal file_id t2 net.active_transfers })

end MainPy

namespace SVNodePy

/-- `storage_virtual_node.py`, enum `TransferStatus`. -/
inductive TransferStatus where
  | pending
  | in_progress
  | completed
  | failed
deriving DecidableEq

/-- `storage_virtual_node.py`, dataclass `FileChunk`. -/
structure FileChunk where
  chunk_id : Nat
  size : Nat
  checksum : String
  status : TransferStatus
  stored_node : Option String
deriving DecidableEq

/-- `storage_virtual_node.py`, dataclass `FileTransfer`; the wall-clock
fields `created_at` / `completed_at` are omitted from the embedding. -/
structure FileTransfer where
  file_id : String
  file_name : String
  total_size : Nat
  chunks : List FileChunk
  status : TransferStatus
deriving DecidableEq

/-- `storage_virtual_node.py`, class `StorageVirtualNode` state. -/
structure StorageVirtualNode where
  node_id : String
  cpu_capacity : Nat
  memory_capacity : Nat
  total_storage : Nat
  bandwidth : Nat
  used_storage : Nat
  active_transfers : List (String × FileTransfer)
  stored_files : List (String × FileTransfer)
  network_utilization : ℚ
  total_requests_processed : Nat
  total_data_transferred : Nat
  failed_transfers : Nat
  connections : List (String × Nat)
deriving DecidableEq

/-- `storage_virtual_node.py`, the initializer (spelled `_init_` in the
source): `total_storage = storage_capacity * 1024**3` bytes,
`bandwidth = bandwidth * 1_000_000` bits/sec, everything else zeroed. -/
def StorageVirtualNode.make (node_id : String)
    (cpu_capacity memory_capacity storage_capacity bandwidth : Nat) :
    StorageVirtualNode :=
  ⟨node_id, cpu_capacity, memory_capacity,
    storage_capacity * 1024 * 1024 * 1024, bandwidth * 1000000,
    0, [], [], 0, 0, 0, 0, []⟩

/-- `storage_virtual_node.py`, `StorageVirtualNode.add_connection`:
`connections[node_id] = bandwidth * 1_000_000`. -/
def StorageVirtualNode.add_connection (n : StorageVirtualNode)
    (node_id : String) (bandwidth : Nat) : StorageVirtualNode :=
  { n with connections := setVal node_id (bandwidth * 1000000) n.connections }

/-- `storage_virtual_node.py`, `StorageVirtualNode._calculate_chunk_size`:
512 KiB below 10 MiB, 2 MiB below 100 MiB, else 10 MiB. -/
def calculate_chunk_size (file_size : Nat) : Nat :=
  if file_size < 10 * 1024 * 1024 then 512 * 1024
  else if file_size < 100 * 1024 * 1024 then 2 * 1024 * 1024
  else 10 * 1024 * 1024

/-- `storage_virtual_node.py`, `StorageVirtualNode._generate_chunks`:
`num_chunks = math.ceil(file_size / chunk_size)` (exact ceiling), chunk
`idx` has size `min(chunk_size, file_size - idx * chunk_size)` and
checksum `md5(f"{file_id}-{idx}")`. -/
def generate_chunks (file_id : String) (file_size : Nat) : List FileChunk :=
  let chunk_size := calculate_chunk_size file_size
  let num_chunks := (file_size + chunk_size - 1) / chunk_size
  (List.range num_chunks).map fun idx =>
    ⟨idx, min chunk_size (file_size - idx * chunk_size),
      md5_hexdigest (file_id ++ "-" ++ natToString idx),
      TransferStatus.pending, none⟩

/-- `storage_virtual_node.py`, `StorageVirtualNode.initiate_file_transfer`:
`None` when `used_storage + file_size > total_storage`; otherwise builds
the chunked transfer and registers it as active.  Note the source checks
capacity here but does NOT increment `used_storage`. -/
def StorageVirtualNode.initiate_file_transfer (n : StorageVirtualNode)
    (file_id file_name : String) (file_size : Nat) :
    Option FileTransfer × StorageVirtualNode :=
  if n.used_storage + file_size > n.total_storage then (none, n)
  else
    let transfer : FileTransfer :=
      ⟨file_id, file_name, file_size, generate_chunks file_id file_size,
        TransferStatus.pending⟩
    (some transfer,
      { n with active_transfers := setVal file_id transfer n.active_transfers })

/-- Marks the first chunk whose `chunk_id` matches as completed and
stored on `nid` — the model of mutating the object found by
`next(c for c in transfer.chunks if c.chunk_id == chunk_id)`. -/
def markChunkById (chunk_id : Nat) (nid : String) :
    List FileChunk → List FileChunk
  | [] => []
  | c :: cs =>
    if c.chunk_id = chunk_id then
      { c with status := TransferStatus.completed, stored_node := some nid } :: cs
    else c :: markChunkById chunk_id nid cs

/-- `storage_virtual_node.py`, `StorageVirtualNode.process_chunk_transfer`:
fails on an unknown transfer or chunk id or when no bandwidth is
available; otherwise marks the chunk completed, charges bandwidth
(`network_utilization += available_bw * 0.8`, modelled exactly as
`* (4/5)` over ℚ) and data counters, and — when every chunk is now
completed — marks the transfer completed, adds `total_size` to
`used_storage`, moves it from `active_transfers` to `stored_files` and
bumps `total_requests_processed`.  The `time.sleep(...)` simulation of
the transfer duration has no state effect and is omitted. -/
def StorageVirtualNode.process_chunk_transfer (n : StorageVirtualNode)
    (file_id : String) (chunk_id : Nat) (source_node : String) :
    Bool × StorageVirtualNode :=
  match findVal file_id n.active_transfers with
  | none => (false, n)
  | some transfer =>
    match transfer.chunks.find? (fun c => c.chunk_id == chunk_id) with
    | none => (false, n)
    | some chunk =>
      let available_bw : ℚ :=
        min (qSub (n.bandwidth : ℚ) n.network_utilization)
          ((((findVal source_node n.connections).getD 0 : Nat) : ℚ))
      if available_bw ≤ 0 then (false, n)
      else
        let chunks' := markChunkById chunk_id n.node_id transfer.chunks
        let transfer' := { transfer with chunks := chunks' }
        let n1 := { n with
          network_utilization :=
            qAdd n.network_utilization (qMul available_bw (mkRat 4 5)),
          total_data_transferred := n.total_data_transferred + chunk.size }
        if chunks'.all (fun c => c.status == TransferStatus.completed) then
          (true, { n1 with
            used_storage := n1.used_storage + transfer.total_size,
            stored_files :=
              setVal file_id { transfer' with status := TransferStatus.completed }
                n1.stored_files,
            active_transfers := eraseVal file_id n1.active_transfers,
            total_requests_processed := n1.total_requests_processed + 1 })
        else
          (true, { n1 with
            active_transfers := setVal file_id transfer' n1.active_transfers })

/-- Driver loop model: feed a list of chunk ids one by one through
`process_chunk_transfer`, keeping only the node state. -/
def StorageVirtualNode.processChunkSeq (n : StorageVirtualNode)
    (file_id : String) (source_node : String) (ids : List Nat) :
    StorageVirtualNode :=
  ids.foldl (fun nd i => (nd.process_chunk_transfer file_id i source_node).2) n

end SVNodePy

namespace SVNetPy

/-- `storage_virtual_network.py`, enum `TransferStatus`. -/
inductive TransferStatus where
  | pending
  | in_progress
  | completed
  | failed
deriving DecidableEq

/-- `storage_virtual_network.py`, dataclass `ChunkInfo`; the wall-clock
`timestamp` field is omitted from the embedding. -/
structure ChunkInfo where
  chunk_id : String
  size : Nat
  status : TransferStatus
deriving DecidableEq

/-- `storage_virtual_network.py`, class `FileTransfer` fields. -/
structure FileTransfer where
  file_id : String
  file_name : String
  file_size : Nat
  source_node_id : String
  chunk_size : Nat
  status : TransferStatus
  chunks : List ChunkInfo
deriving DecidableEq

/-- `storage_virtual_network.py`, `FileTransfer.__init__`:
`num_chunks = (file_size + chunk_size - 1) // chunk_size`; chunk `idx`
has id `f"{file_id}_chunk_{idx}"` and size
`min(chunk_size, file_size - idx * chunk_size)`.  The constructor's
default `chunk_size` is `1024*1024`; callers pass it explicitly. -/
def FileTransfer.make (file_id file_name : String) (file_size : Nat)
    (source_node_id : String) (chunk_size : Nat) : FileTransfer :=
  ⟨file_id, file_name, file_size, source_node_id, chunk_size,
    TransferStatus.pending,
    (List.range ((file_size + chunk_size - 1) / chunk_size)).map fun idx =>
      ⟨file_id ++ "_chunk_" ++ natToString idx,
        min chunk_size (file_size - idx * chunk_size),
        TransferStatus.pending⟩⟩

/-- `storage_virtual_network.py`, `FileTransfer.get_progress`: `0.0` when
the chunk list is empty, else `completed_chunks / len(chunks) * 100`. -/
def FileTransfer.get_progress (t : FileTransfer) : ℚ :=
  if t.chunks = [] then 0
  else ((t.chunks.countP fun c => c.status == TransferStatus.completed : Nat) : ℚ) /
    (t.chunks.length : ℚ) * 100

/-- The object store for `FileTransfer`s.  In the source, one
`FileTransfer` object per `file_id` is shared (aliased) between a
`StorageNode`'s `active_transfers` dict and the `StorageNetwork`'s
`transfer_operations`; the embedding therefore keeps the objects in a
single network-owned heap keyed by `file_id`, and dicts that hold
references record the keys. -/
abbrev Heap := List (String × FileTransfer)

/-- Insert a key into a dict-key set if absent, the model of
`d[k] = obj` on a dict modelled as its key list. -/
def insertKey (k : String) (l : List String) : List String :=
  if k ∈ l then l else l ++ [k]

/-- Remove a key from a dict-key set, the model of `del d[k]`. -/
def removeKey (k : String) : List String → List String
  | [] => []
  | x :: xs => if x = k then xs else x :: removeKey k xs

/-- `storage_virtual_network.py`, class `StorageNode` state;
`active_transfers` holds the keys of the node's transfer dict (the
objects live in the network `Heap`). -/
structure StorageNode where
  node_id : String
  cpu_capacity : Nat
  memory_capacity : Nat
  total_storage : Nat
  bandwidth : Nat
  used_storage : Nat
  network_utilization : Nat
  connections : List (String × Nat)
  active_transfers : List String
deriving DecidableEq

/-- `storage_virtual_network.py`, `StorageNode.__init__`. -/
def StorageNode.make (node_id : String)
    (cpu_capacity memory_capacity storage_capacity bandwidth : Nat) :
    StorageNode :=
  ⟨node_id, cpu_capacity, memory_capacity, storage_capacity, bandwidth,
    0, 0, [], []⟩

/-- `storage_virtual_network.py`, `StorageNode.add_connection`. -/
def StorageNode.add_connection (n : StorageNode) (target_node_id : String)
    (bandwidth : Nat) : StorageNode :=
  { n with connections := setVal target_node_id bandwidth n.connections }

/-- `storage_virtual_network.py`, `StorageNode.allocate_storage`:
identical check-and-increment to the `main.py` variant. -/
def StorageNode.allocate_storage (n : StorageNode) (size : Nat) :
    Bool × StorageNode :=
  if n.used_storage + size ≤ n.total_storage then
    (true, { n with used_storage := n.used_storage + size })
  else
    (false, n)

/-- `storage_virtual_network.py`, `StorageNode.free_storage`:
`max(0, used_storage - size)`, i.e. `Nat` truncated subtraction. -/
def StorageNode.free_storage (n : StorageNode) (size : Nat) : StorageNode :=
  { n with used_storage := n.used_storage - size }

/-- Result record of `storage_virtual_network.py`
`StorageNode.get_storage_utilization`. -/
structure NodeUtilization where
  used : Nat
  capacity : Nat
  utilization_percent : ℚ
deriving DecidableEq

/-- `storage_virtual_network.py`, `StorageNode.get_storage_utilization`:
`(used / total) * 100 if total_storage > 0 else 0` — guarded division. -/
def StorageNode.get_storage_utilization (n : StorageNode) : NodeUtilization :=
  ⟨n.used_storage, n.total_storage,
    if n.total_storage > 0 then
      ((n.used_storage : ℚ) / (n.total_storage : ℚ)) * 100
    else 0⟩

/-- `storage_virtual_network.py`, `StorageNode.initiate_file_transfer`:
`None` when `allocate_storage` fails (no mutation); otherwise the
transfer is built, set `IN_PROGRESS` and registered in the node's dict
(key recorded, object in the heap). -/
def StorageNode.initiate_file_transfer (n : StorageNode) (heap : Heap)
    (file_id file_name : String) (file_size : Nat) (source_node_id : String) :
    Option (FileTransfer × StorageNode × Heap) :=
  let r := n.allocate_storage file_size
  if r.1 then
    let transfer : FileTransfer :=
      { FileTransfer.make file_id file_name file_size source_node_id
          (1024 * 1024) with status := TransferStatus.in_progress }
    some (transfer,
      { r.2 with active_transfers := insertKey file_id r.2.active_transfers },
      setVal file_id transfer heap)
  else none

/-- Marks as completed the first chunk with the given id whose status is
not already `COMPLETED` — the body of the `for chunk in transfer.chunks`
search in `StorageNode.process_chunk_transfer`; `none` when the loop
falls through. -/
def findMarkChunk (chunk_id : String) : List ChunkInfo → Option (List ChunkInfo)
  | [] => none
  | c :: cs =>
    if c.chunk_id = chunk_id ∧ c.status ≠ TransferStatus.completed then
      some ({ c with status := TransferStatus.completed } :: cs)
    else
      match findMarkChunk chunk_id cs with
      | none => none
      | some cs' => some (c :: cs')

/-- `storage_virtual_network.py`, `StorageNode.process_chunk_transfer`:
`False` when `file_id` is not among the node's active transfers or no
matching not-yet-completed chunk exists; otherwise marks the chunk (and,
when all chunks are then completed, the transfer) completed.  The chunk
`timestamp` update is wall clock and omitted.  The node itself is not
mutated; only the shared transfer object (heap) changes. -/
def StorageNode.process_chunk_transfer (n : StorageNode) (heap : Heap)
    (file_id chunk_id : String) (_source_node_id : String) : Bool × Heap :=
  if file_id ∈ n.active_transfers then
    match findVal file_id heap with
    | none => (false, heap)
    | some transfer =>
      match findMarkChunk chunk_id transfer.chunks with
      | none => (false, heap)
      | some chunks' =>
        let transfer' := { transfer with chunks := chunks' }
        let transfer'' :=
          if chunks'.all (fun c => c.status == TransferStatus.completed) then
            { transfer' with status := TransferStatus.completed }
          else transfer'
        (true, setVal file_id transfer'' heap)
  else (false, heap)

/-- `storage_virtual_network.py`, class `StorageNetwork` state.
`transfer_operations` is a `defaultdict(dict)`: a missing source key
behaves as an empty dict, which `opsOf` models by defaulting to `[]`.
The inner dicts hold shared `FileTransfer` objects, recorded as heap
keys. -/
structure StorageNetwork where
  nodes : List (String × StorageNode)
  transfer_operations : List (String × List String)
  transfers : Heap
deriving DecidableEq

/-- `storage_virtual_network.py`, `StorageNetwork.__init__`. -/
def StorageNetwork.empty : StorageNetwork := ⟨[], [], []⟩

/-- Lookup of `transfer_operations[source]` with the `defaultdict`
empty-dict default. -/
def StorageNetwork.opsOf (net : StorageNetwork) (source_node_id : String) :
    List String :=
  (findVal source_node_id net.transfer_operations).getD []

/-- `storage_virtual_network.py`, `StorageNetwork.add_node`. -/
def StorageNetwork.add_node (net : StorageNetwork) (node : StorageNode) :
    StorageNetwork :=
  { net with nodes := setVal node.node_id node net.nodes }

/-- `storage_virtual_network.py`, `StorageNetwork.connect_nodes`: `False`
when either id is absent (nothing mutated); otherwise calls
`add_connection` on both nodes (sequentially, second lookup after the
first write-back) and returns `True`. -/
def StorageNetwork.connect_nodes (net : StorageNetwork)
    (node1_id node2_id : String) (bandwidth : Nat) : Bool × StorageNetwork :=
  if (findVal node1_id net.nodes).isSome ∧ (findVal node2_id net.nodes).isSome then
    let nodes1 :=
      match findVal node1_id net.nodes with
      | some n1 => setVal node1_id (n1.add_connection node2_id bandwidth) net.nodes
      | none => net.nodes
    let nodes2 :=
      match findVal node2_id nodes1 with
      | some n2 => setVal node2_id (n2.add_connection node1_id bandwidth) nodes1
      | none => nodes1
    (true, { net with nodes := nodes2 })
  else
    (false, net)

/-- `storage_virtual_network.py`, `StorageNetwork.initiate_file_transfer`:
`None` when either node id is absent; otherwise mints
`file_id = md5(f"{file_name}-{time.time()}")` — the clock reading is the
explicit `now` argument — and delegates to the target node; on success
the shared transfer object is also registered under
`transfer_operations[source][file_id]`. -/
def StorageNetwork.initiate_file_transfer (net : StorageNetwork)
    (source_node_id target_node_id file_name : String) (file_size : Nat)
    (now : String) : Option FileTransfer × StorageNetwork :=
  if (findVal source_node_id net.nodes).isSome ∧
      (findVal target_node_id net.nodes).isSome then
    let file_id := md5_hexdigest (file_name ++ "-" ++ now)
    match findVal target_node_id net.nodes with
    | some target_node =>
      match target_node.initiate_file_transfer net.transfers file_id file_name
          file_size source_node_id with
      | some (transfer, target_node', heap') =>
        (some transfer,
          { net with
              nodes := setVal target_node_id target_node' net.nodes,
              transfers := heap',
              transfer_operations :=
                setVal source_node_id (insertKey file_id (net.opsOf source_node_id))
                  net.transfer_operations })
      | none => (none, net)
    | none => (none, net)
  else
    (none, net)

/-- The `for chunk in transfer.chunks` loop of
`StorageNetwork.process_file_transfer`, reading chunk `i` of the live
(heap) transfer object at each iteration; `fuel` is the (fixed) length
of the chunk list.  Returns the chunks-transferred counter, the final
heap, and whether the loop exited early through the
`return (chunks_transferred, False)` branch. -/
def loopChunks (target_node : StorageNode) (file_id source_node_id : String)
    (chunks_per_step : Nat) : Nat → Nat → Nat → Heap → Nat × Heap × Bool
  | 0, _, count, heap => (count, heap, false)
  | fuel + 1, i, count, heap =>
    match findVal file_id heap with
    | none => (count, heap, false)
    | some transfer =>
      match transfer.chunks[i]? with
      | none => (count, heap, false)
      | some chunk =>
        if chunk.status ≠ TransferStatus.completed ∧ count < chunks_per_step then
          let r := target_node.process_chunk_transfer heap file_id chunk.chunk_id
            source_node_id
          if r.1 then
            loopChunks target_node file_id source_node_id chunks_per_step fuel
              (i + 1) (count + 1) r.2
          else
            (count, r.2, true)
        else
          loopChunks target_node file_id source_node_id chunks_per_step fuel
            (i + 1) count heap

/-- `storage_virtual_network.py`, `StorageNetwork.process_file_transfer`:
`(0, False)` when either node id is unknown or `file_id` is not in
`transfer_operations[source]`; otherwise walks the chunk list marking
not-yet-completed chunks through the target node while the per-step
budget lasts, and — if the transfer object ended up `COMPLETED` —
deletes it from `transfer_operations[source]` and reports `True`. -/
def StorageNetwork.process_file_transfer (net : StorageNetwork)
    (source_node_id target_node_id file_id : String) (chunks_per_step : Nat) :
    (Nat × Bool) × StorageNetwork :=
  if (findVal source_node_id net.nodes).isNone ∨
      (findVal target_node_id net.nodes).isNone ∨
      file_id ∉ net.opsOf source_node_id then
    ((0, false), net)
  else
    match findVal target_node_id net.nodes, findVal file_id net.transfers with
    | some target_node, some transfer =>
      match loopChunks target_node file_id source_node_id chunks_per_step
          transfer.chunks.length 0 0 net.transfers with
      | (count, heap', aborted) =>
        if aborted then ((count, false), { net with transfers := heap' })
        else
          match findVal file_id heap' with
          | some transfer' =>
            if transfer'.status = TransferStatus.completed then
              ((count, true),
                { net with
                    transfers := heap',
                    transfer_operations :=
                      setVal source_node_id
                        (removeKey file_id (net.opsOf source_node_id))
                        net.transfer_operations })
            else ((count, false), { net with transfers := heap' })
          | none => ((count, false), { net with transfers := heap' })
    | _, _ => ((0, false), net)

/-- Result record of `storage_virtual_network.py`
`StorageNetwork.get_network_stats`. -/
structure NetworkStats where
  total_nodes : Nat
  total_bandwidth_bps : Nat
  used_bandwidth_bps : Nat
  bandwidth_utilization : ℚ
  total_storage_bytes : Nat
  used_storage_bytes : Nat
  storage_utilization : ℚ
  active_transfers : Nat
deriving DecidableEq

/-- `storage_virtual_network.py`, `StorageNetwork.get_network_stats`:
plain sums over the node registry, with percentages guarded to `0` on a
zero denominator. -/
def StorageNetwork.get_network_stats (net : StorageNetwork) : NetworkStats :=
  let total_bandwidth := (net.nodes.map fun p => p.2.bandwidth).sum
  let used_bandwidth := (net.nodes.map fun p => p.2.network_utilization).sum
  let total_storage := (net.nodes.map fun p => p.2.total_storage).sum
  let used_storage := (net.nodes.map fun p => p.2.used_storage).sum
  ⟨net.nodes.length, total_bandwidth, used_bandwidth,
    if total_bandwidth > 0 then
      ((used_bandwidth : ℚ) / (total_bandwidth : ℚ)) * 100
    else 0,
    total_storage, used_storage,
    if total_storage > 0 then
      ((used_storage : ℚ) / (total_storage : ℚ)) * 100
    else 0,
    (net.transfer_operations.map fun p => p.2.length).sum⟩

end SVNetPy

/-- A one-node network (only `"a"` registered), used to refute C7. -/
def c7net : MainPy.StorageVirtualNetwork :=
  MainPy.StorageVirtualNetwork.empty.add_node ⟨"a", 4, 16, 500, 1000, 0⟩

/-- A zero-capacity `main.py` node, used to refute C8. -/
def c8node : MainPy.StorageVirtualNode := ⟨"z", 1, 1, 0, 1, 0⟩

/-- A zero-byte `main.py` transfer (zero chunks), used to refute C10. -/
def c10t : MainPy.FileTransfer :=
  MainPy.FileTransfer.make "t0" "a" "b" "f" 0 (1024 * 1024)

/-- A `main.py` 5 MiB transfer (as built by `initiate_file_transfer`),
used to refute C3. -/
def c3t : MainPy.FileTransfer :=
  MainPy.FileTransfer.make "transfer_0" "a" "b" "f" (5 * 1024 * 1024)
    (1024 * 1024)

/-- A public operation on `main.py`'s `StorageVirtualNetwork`: the
network methods, plus direct `allocate_storage` / `free_storage` calls
on a registered node (modelling a driver that holds the node). -/
inductive MainPy.NetOp where
  | addnode (nd : MainPy.StorageVirtualNode)
  | connect (a b : String) (bw : Nat)
  | initiate (src tgt name : String) (size : Nat)
  | advance (src tgt fid : String) (k : Nat)
  | reserve (nid : String) (size : Nat)
  | release (nid : String) (size : Nat)

/-- One step of a `main.py` driver. -/
def MainPy.applyOp (net : MainPy.StorageVirtualNetwork) :
    MainPy.NetOp → MainPy.StorageVirtualNetwork
  | .addnode nd => net.add_node nd
  | .connect a b bw => net.connect_nodes a b bw
  | .initiate src tgt name size =>
    (net.initiate_file_transfer src tgt name size).2
  | .advance src tgt fid k => (net.process_file_transfer src tgt fid k).2
  | .reserve nid size =>
    match findVal nid net.nodes with
    | some nd =>
      { net with nodes := setVal nid (nd.allocate_storage size).2 net.nodes }
    | none => net
  | .release nid size =>
    match findVal nid net.nodes with
    | some nd => { net with nodes := setVal nid (nd.free_storage size) net.nodes }
    | none => net

/-- A whole driver run. -/
def MainPy.applyOps (net : MainPy.StorageVirtualNetwork)
    (ops : List MainPy.NetOp) : MainPy.StorageVirtualNetwork :=
  ops.foldl MainPy.applyOp net

/-- The per-node storage invariant of the claim:
`used_storage ≤ storage_capacity` on every registered node
(`0 ≤ used_storage` holds by the `Nat` representation). -/
def MainPy.NodesBounded (net : MainPy.StorageVirtualNetwork) : Prop :=
  ∀ p ∈ net.nodes, p.2.used_storage ≤ p.2.storage_capacity

/-- A `storage_virtual_node.py` node (1 GiB of storage, ample bandwidth)
connected to a source `"a"`, used to refute C6. -/
def c6node : SVNodePy.StorageVirtualNode :=
  (SVNodePy.StorageVirtualNode.make "b" 4 16 1 1000).add_connection "a" 1

/-- `c6node` after accepting a 512 MiB transfer (no storage charged). -/
def c6afterA : SVNodePy.StorageVirtualNode :=
  (c6node.initiate_file_transfer "fA" "A" (2 ^ 29)).2

/-- ... and then also a (512 MiB + 1 B) transfer, again while
`used_storage = 0`, so the capacity check passes for both. -/
def c6afterB : SVNodePy.StorageVirtualNode :=
  (c6afterA.initiate_file_transfer "fB" "B" (2 ^ 29 + 1)).2

/-- ... after the driver completes all 52 chunks of each transfer. -/
def c6final : SVNodePy.StorageVirtualNode :=
  (c6afterB.processChunkSeq "fA" "a" (List.range 52)).processChunkSeq
    "fB" "a" (List.range 52)

/-- Witness for C6's amended theorem: a concrete driver run mixing all
six operations, and a concrete over-release flooring at 0. -/
def c6wnet : MainPy.StorageVirtualNetwork :=
  MainPy.StorageVirtualNetwork.empty.add_node ⟨"a", 4, 16, 100, 10, 0⟩

/-- A concrete operation sequence exercising every constructor. -/
def c6wops : List MainPy.NetOp :=
  [MainPy.NetOp.reserve "a" 60, MainPy.NetOp.release "a" 200,
   MainPy.NetOp.initiate "a" "a" "f" 30,
   MainPy.NetOp.advance "a" "a" "transfer_0" 2,
   MainPy.NetOp.connect "a" "a" 5,
   MainPy.NetOp.addnode ⟨"c", 1, 1, 50, 1, 7⟩]

/-- A two-node `storage_virtual_network.py` network, used to refute C9. -/
def c9net0 : SVNetPy.StorageNetwork :=
  (SVNetPy.StorageNetwork.empty.add_node
    (SVNetPy.StorageNode.make "a" 4 16 1000 100)).add_node
    (SVNetPy.StorageNode.make "b" 8 32 1000 200)

/-- First initiation, at clock reading `1700000000.0`. -/
def c9r1 : Option SVNetPy.FileTransfer × SVNetPy.StorageNetwork :=
  c9net0.initiate_file_transfer "a" "b" "data.zip" 100 "1700000000.0"

/-- Second initiation with the same file name at the same instant. -/
def c9r2 : Option SVNetPy.FileTransfer × SVNetPy.StorageNetwork :=
  c9r1.2.initiate_file_transfer "a" "b" "data.zip" 100 "1700000000.0"

/-- Witness for C9's amended theorem: two back-to-back initiations on a
concrete two-node network yield `transfer_0` and `transfer_1`. -/
def c9wnet : MainPy.StorageVirtualNetwork :=
  (MainPy.StorageVirtualNetwork.empty.add_node
    ⟨"a", 4, 16, 500, 1000, 0⟩).add_node ⟨"b", 4, 16, 500, 1000, 0⟩

/-- The transfer returned by the first initiation on `c9wnet`. -/
def c9wtr1 : MainPy.FileTransfer :=
  MainPy.FileTransfer.make ("transfer_" ++ natToString 0) "a" "b" "f" 10
    (1024 * 1024)

/-- The transfer returned by the second initiation on `c9wnet`. -/
def c9wtr2 : MainPy.FileTransfer :=
  MainPy.FileTransfer.make ("transfer_" ++ natToString 1) "a" "b" "g" 20
    (1024 * 1024)

/-- A `storage_virtual_node.py` node with a connection from `"a"`, used
to refute C4. -/
def c4node : SVNodePy.StorageVirtualNode :=
  (SVNodePy.StorageVirtualNode.make "b" 8 32 1 1000).add_connection "a" 1

/-- The result of initiating a 1000-byte (single-chunk) transfer. -/
def c4r : Option SVNodePy.FileTransfer × SVNodePy.StorageVirtualNode :=
  c4node.initiate_file_transfer "fX" "x.bin" 1000

/-- ... and the node after the one chunk is transferred. -/
def c4done : SVNodePy.StorageVirtualNode :=
  (c4r.2.process_chunk_transfer "fX" 0 "a").2

/-- Witness for C4's amended theorem: a concrete successful initiation
charging the target eagerly, and a concrete advance leaving nodes
untouched. -/
def c4wnet1 : MainPy.StorageVirtualNetwork :=
  (MainPy.StorageVirtualNetwork.empty.add_node
    ⟨"a", 4, 16, 500, 1000, 0⟩).add_node ⟨"b", 4, 16, 500, 1000, 0⟩

/-- Specification-side description of one `process_file_transfer` pass:
mark the first `k` not-yet-completed chunks (i.e. the pending ones with
the lowest indices, in ascending order) as completed, returning how many
were marked together with the resulting list. -/
def SVNetPy.markFirst (k : Nat) :
    List SVNetPy.ChunkInfo → Nat × List SVNetPy.ChunkInfo
  | [] => (0, [])
  | c :: cs =>
    if c.status ≠ SVNetPy.TransferStatus.completed then
      if 0 < k then
        ((SVNetPy.markFirst (k - 1) cs).1 + 1,
          { c with status := SVNetPy.TransferStatus.completed } ::
            (SVNetPy.markFirst (k - 1) cs).2)
      else (0, c :: cs)
    else
      ((SVNetPy.markFirst k cs).1, c :: (SVNetPy.markFirst k cs).2)

/-- The number of not-yet-completed chunks in a list. -/
def SVNetPy.pendingCount (l : List SVNetPy.ChunkInfo) : Nat :=
  l.countP fun c => !(c.status == SVNetPy.TransferStatus.completed)

/-- The transfer object after one successful chunk marking: chunk `c`
(at position `|P|`) becomes completed, and the transfer's status flips
to completed exactly when no pending chunk remains. -/
def SVNetPy.markStep (t : SVNetPy.FileTransfer)
    (P S : List SVNetPy.ChunkInfo) (c : SVNetPy.ChunkInfo) :
    SVNetPy.FileTransfer :=
  if SVNetPy.pendingCount
      (P ++ { c with status := SVNetPy.TransferStatus.completed } :: S) = 0 then
    { t with
        chunks := P ++ { c with status := SVNetPy.TransferStatus.completed } :: S,
        status := SVNetPy.TransferStatus.completed }
  else
    { t with
        chunks := P ++ { c with status := SVNetPy.TransferStatus.completed } :: S }

/-- The two-node network used to refute C2: nodes `"a"` and `"b"`. -/
def c2net0 : SVNetPy.StorageNetwork :=
  (SVNetPy.StorageNetwork.empty.add_node
    (SVNetPy.StorageNode.make "a" 4 16 1000 100)).add_node
    (SVNetPy.StorageNode.make "b" 8 32 1000 200)

/-- ... with one 100-byte (single-chunk) transfer initiated. -/
def c2net1 : SVNetPy.StorageNetwork :=
  (c2net0.initiate_file_transfer "a" "b" "f" 100 "t0").2

/-- ... and that transfer driven to completion in one call. -/
def c2run : (Nat × Bool) × SVNetPy.StorageNetwork :=
  c2net1.process_file_transfer "a" "b" "f-t0" 3

/-- The target node `"b"` inside `c2net1`, extracted for the witness. -/
def c2tnode : SVNetPy.StorageNode :=
  (findVal "b" c2net1.nodes).getD (SVNetPy.StorageNode.make "z" 0 0 0 0)

/-- The in-flight transfer `"f-t0"` inside `c2net1`, extracted for the
witness. -/
def c2t : SVNetPy.FileTransfer :=
  (findVal "f-t0" c2net1.transfers).getD
    ⟨"z", "z", 0, "z", 0, SVNetPy.TransferStatus.pending, []⟩

theorem decDigitsVal_natDigitsRevAux :
    ∀ (fuel n : Nat), n < fuel → decDigitsVal (natDigitsRevAux n fuel) = n := by
  intro fuel
  induction fuel with
  | zero => omega
  | succ f ih =>
    intro n hn
    rw [natDigitsRevAux]
    split
    · simp [decDigitsVal]
    · rename_i h
      simp only [decDigitsVal]
      rw [ih (n / 10) (by omega)]
      omega

theorem decDigitsVal_natDigitsRev (n : Nat) :
    decDigitsVal (natDigitsRev n) = n :=
  decDigitsVal_natDigitsRevAux (n + 1) n (by omega)

theorem natDigitsRev_injective : Function.Injective natDigitsRev := by
  intro a b h
  have ha := decDigitsVal_natDigitsRev a
  have hb := decDigitsVal_natDigitsRev b
  rw [h, hb] at ha
  exact ha.symm

theorem natDigitsRevAux_lt_ten :
    ∀ (fuel n : Nat), ∀ d ∈ natDigitsRevAux n fuel, d < 10 := by
  intro fuel
  induction fuel with
  | zero =>
    intro n d hd
    simp [natDigitsRevAux] at hd
  | succ f ih =>
    intro n d hd
    rw [natDigitsRevAux] at hd
    split at hd
    · rename_i h
      simp at hd
      omega
    · simp at hd
      rcases hd with h1 | h2
      · omega
      · exact ih (n / 10) d h2

theorem natDigitsRev_lt_ten (n : Nat) : ∀ d ∈ natDigitsRev n, d < 10 :=
  natDigitsRevAux_lt_ten (n + 1) n

theorem digitChar_inj_lt :
    ∀ a < 10, ∀ b < 10, Nat.digitChar a = Nat.digitChar b → a = b := by
  decide

theorem map_digitChar_inj : ∀ (l1 l2 : List Nat),
    (∀ d ∈ l1, d < 10) → (∀ d ∈ l2, d < 10) →
    l1.map Nat.digitChar = l2.map Nat.digitChar → l1 = l2 := by
  intro l1
  induction l1 with
  | nil =>
    intro l2 _ _ h
    cases l2 with
    | nil => rfl
    | cons b bs => simp at h
  | cons a as ih =>
    intro l2 h1 h2 h
    cases l2 with
    | nil => simp at h
    | cons b bs =>
      simp only [List.map_cons, List.cons.injEq] at h
      have hab : a = b := by
        apply digitChar_inj_lt a (h1 a (by simp)) b (h2 b (by simp)) h.1
      have : as = bs := by
        apply ih bs (fun d hd => h1 d (by simp [hd]))
          (fun d hd => h2 d (by simp [hd])) h.2
      rw [hab, this]

theorem natToString_injective : Function.Injective natToString := by
  intro a b h
  apply natDigitsRev_injective
  have hd : ((natDigitsRev a).reverse).map Nat.digitChar =
      ((natDigitsRev b).reverse).map Nat.digitChar := congrArg String.data h
  have := map_digitChar_inj ((natDigitsRev a).reverse) ((natDigitsRev b).reverse)
    (fun d hd => natDigitsRev_lt_ten a d (List.mem_reverse.mp hd))
    (fun d hd => natDigitsRev_lt_ten b d (List.mem_reverse.mp hd)) hd
  exact List.reverse_injective this

theorem string_append_data (s t : String) : (s ++ t).data = s.data ++ t.data := by
  cases s
  cases t
  rfl

theorem string_append_left_cancel {p s t : String}
    (h : p ++ s = p ++ t) : s = t := by
  have hd : p.data ++ s.data = p.data ++ t.data := by
    rw [← string_append_data, ← string_append_data, h]
  have : s.data = t.data := List.append_cancel_left hd
  cases s
  cases t
  exact congrArg String.mk this

theorem qAdd_eq (a b : ℚ) : qAdd a b = a + b := by
  rw [Rat.add_def]
  simp [qAdd, Rat.normalize_eq_mkRat]

theorem qSub_eq (a b : ℚ) : qSub a b = a - b := by
  rw [Rat.sub_def]
  simp [qSub, Rat.normalize_eq_mkRat]

theorem qMul_eq (a b : ℚ) : qMul a b = a * b := by
  rw [Rat.mul_def]
  simp [qMul, Rat.normalize_eq_mkRat]

theorem findVal_setVal_self (k : String) (v : α) (l : List (String × α)) :
    findVal k (setVal k v l) = some v := by
  induction l with
  | nil => simp [findVal, setVal]
  | cons p t ih =>
    obtain ⟨k', v'⟩ := p
    by_cases h : k' = k
    · simp [findVal, setVal, h]
    · simp [findVal, setVal, h, ih]

theorem findVal_setVal_ne (k k' : String) (v : α) (l : List (String × α))
    (h : k' ≠ k) : findVal k (setVal k' v l) = findVal k l := by
  induction l with
  | nil => simp [findVal, setVal, h]
  | cons p t ih =>
    obtain ⟨k'', v''⟩ := p
    by_cases h2 : k'' = k'
    · subst h2
      simp [findVal, setVal, h]
    · by_cases h3 : k'' = k
      · simp [findVal, setVal, h2, h3, Ne.symm h]
      · simp [findVal, setVal, h2, h3, ih]

theorem mem_setVal (k : String) (v : α) (l : List (String × α)) :
    ∀ p ∈ setVal k v l, p = (k, v) ∨ p ∈ l := by
  induction l with
  | nil =>
    intro p hp
    simp [setVal] at hp
    left
    exact hp
  | cons q t ih =>
    intro p hp
    obtain ⟨k', v'⟩ := q
    by_cases h : k' = k
    · simp [setVal, h] at hp
      rcases hp with h1 | h2
      · left
        exact h1
      · right
        simp [h2]
    · simp [setVal, h] at hp
      rcases hp with h1 | h2
      · right
        simp [h1]
      · rcases ih p h2 with h3 | h4
        · left
          exact h3
        · right
          simp [h4]

/-- Claim C1: for both node variants that implement it (`main.py`
`StorageVirtualNode` and `storage_virtual_network.py` `StorageNode`),
`allocate_storage size` returns `True` and increments `used_storage` by
`size` exactly when `used_storage + size ≤ storage_capacity`; otherwise
it returns `False` and leaves the node (in particular `used_storage`)
unchanged. -/
theorem C1_reserve_storage_spec
    (n1 : MainPy.StorageVirtualNode) (n2 : SVNetPy.StorageNode) (size : Nat) :
    (n1.used_storage + size ≤ n1.storage_capacity →
      n1.allocate_storage size =
        (true, { n1 with used_storage := n1.used_storage + size })) ∧
    (n1.storage_capacity < n1.used_storage + size →
      n1.allocate_storage size = (false, n1)) ∧
    (n2.used_storage + size ≤ n2.total_storage →
      n2.allocate_storage size =
        (true, { n2 with used_storage := n2.used_storage + size })) ∧
    (n2.total_storage < n2.used_storage + size →
      n2.allocate_storage size = (false, n2)) := by
  refine ⟨fun h => ?_, fun h => ?_, fun h => ?_, fun h => ?_⟩
  · rw [MainPy.StorageVirtualNode.allocate_storage, if_pos h]
  · rw [MainPy.StorageVirtualNode.allocate_storage, if_neg (by omega)]
  · rw [SVNetPy.StorageNode.allocate_storage, if_pos h]
  · rw [SVNetPy.StorageNode.allocate_storage, if_neg (by omega)]

/-- Witness for C1: both outcomes on both variants at concrete inputs. -/
theorem C1_reserve_storage_spec_witness :
    (MainPy.StorageVirtualNode.mk "n" 1 1 100 1 40).allocate_storage 60 =
      (true, { MainPy.StorageVirtualNode.mk "n" 1 1 100 1 40 with
        used_storage := 40 + 60 }) ∧
    (MainPy.StorageVirtualNode.mk "n" 1 1 100 1 41).allocate_storage 60 =
      (false, MainPy.StorageVirtualNode.mk "n" 1 1 100 1 41) ∧
    (SVNetPy.StorageNode.make "m" 1 1 100 1).allocate_storage 100 =
      (true, { SVNetPy.StorageNode.make "m" 1 1 100 1 with
        used_storage := 0 + 100 }) ∧
    (SVNetPy.StorageNode.make "m" 1 1 99 1).allocate_storage 100 =
      (false, SVNetPy.StorageNode.make "m" 1 1 99 1) :=
  ⟨(C1_reserve_storage_spec (MainPy.StorageVirtualNode.mk "n" 1 1 100 1 40)
      (SVNetPy.StorageNode.make "m" 1 1 100 1) 60).1 (by decide),
   (C1_reserve_storage_spec (MainPy.StorageVirtualNode.mk "n" 1 1 100 1 41)
      (SVNetPy.StorageNode.make "m" 1 1 100 1) 60).2.1 (by decide),
   (C1_reserve_storage_spec (MainPy.StorageVirtualNode.mk "n" 1 1 100 1 40)
      (SVNetPy.StorageNode.make "m" 1 1 100 1) 100).2.2.1 (by decide),
   (C1_reserve_storage_spec (MainPy.StorageVirtualNode.mk "n" 1 1 100 1 40)
      (SVNetPy.StorageNode.make "m" 1 1 99 1) 100).2.2.2 (by decide)⟩

/-- Claim C5: in both network variants, `initiate_file_transfer` fails
(returns `None`, the node-not-found outcome) when either node id is
absent, and fails (the insufficient-storage outcome) when the target's
reservation is refused; in each failure case the whole network state —
in particular the target's `used_storage` — is returned unchanged. -/
theorem C5_initiate_transfer_errors
    (net1 : MainPy.StorageVirtualNetwork) (net2 : SVNetPy.StorageNetwork)
    (src tgt name now : String) (size : Nat) :
    ((findVal src net1.nodes).isNone ∨ (findVal tgt net1.nodes).isNone →
      net1.initiate_file_transfer src tgt name size = (none, net1)) ∧
    (∀ tnode, (findVal src net1.nodes).isSome →
      findVal tgt net1.nodes = some tnode →
      tnode.storage_capacity < tnode.used_storage + size →
      net1.initiate_file_transfer src tgt name size = (none, net1)) ∧
    ((findVal src net2.nodes).isNone ∨ (findVal tgt net2.nodes).isNone →
      net2.initiate_file_transfer src tgt name size now = (none, net2)) ∧
    (∀ tnode, (findVal src net2.nodes).isSome →
      findVal tgt net2.nodes = some tnode →
      tnode.total_storage < tnode.used_storage + size →
      net2.initiate_file_transfer src tgt name size now = (none, net2)) := by
  refine ⟨fun h => ?_, fun tnode hs ht hc => ?_, fun h => ?_,
    fun tnode hs ht hc => ?_⟩
  · rcases h with h | h <;> rw [Option.isNone_iff_eq_none] at h
    · simp [MainPy.StorageVirtualNetwork.initiate_file_transfer, h]
    · cases hs : findVal src net1.nodes <;>
        simp [MainPy.StorageVirtualNetwork.initiate_file_transfer, h, hs]
  · rw [Option.isSome_iff_exists] at hs
    obtain ⟨snode, hs⟩ := hs
    have hfail : ¬(tnode.used_storage + size ≤ tnode.storage_capacity) := by
      omega
    simp [MainPy.StorageVirtualNetwork.initiate_file_transfer, hs, ht,
      MainPy.StorageVirtualNode.allocate_storage, hfail]
  · rcases h with h | h <;> rw [Option.isNone_iff_eq_none] at h <;>
      simp [SVNetPy.StorageNetwork.initiate_file_transfer, h]
  · have hfail : ¬(tnode.used_storage + size ≤ tnode.total_storage) := by
      omega
    simp [SVNetPy.StorageNetwork.initiate_file_transfer, hs, ht,
      SVNetPy.StorageNode.initiate_file_transfer,
      SVNetPy.StorageNode.allocate_storage, hfail]

/-- Witness for C5: an absent target id and an over-capacity request,
each on both variants, at concrete states. -/
theorem C5_initiate_transfer_errors_witness :
    (MainPy.StorageVirtualNetwork.empty.add_node
        ⟨"a", 4, 16, 500, 1000, 0⟩).initiate_file_transfer "a" "b" "f" 10 =
      (none, MainPy.StorageVirtualNetwork.empty.add_node
        ⟨"a", 4, 16, 500, 1000, 0⟩) ∧
    ((MainPy.StorageVirtualNetwork.empty.add_node
        ⟨"a", 4, 16, 500, 1000, 0⟩).add_node
        ⟨"b", 4, 16, 5, 1000, 0⟩).initiate_file_transfer "a" "b" "f" 10 =
      (none, (MainPy.StorageVirtualNetwork.empty.add_node
        ⟨"a", 4, 16, 500, 1000, 0⟩).add_node ⟨"b", 4, 16, 5, 1000, 0⟩) ∧
    (SVNetPy.StorageNetwork.empty.add_node
        (SVNetPy.StorageNode.make "a" 4 16 500 1000)).initiate_file_transfer
        "a" "b" "f" 10 "t0" =
      (none, SVNetPy.StorageNetwork.empty.add_node
        (SVNetPy.StorageNode.make "a" 4 16 500 1000)) ∧
    ((SVNetPy.StorageNetwork.empty.add_node
        (SVNetPy.StorageNode.make "a" 4 16 500 1000)).add_node
        (SVNetPy.StorageNode.make "b" 4 16 5 1000)).initiate_file_transfer
        "a" "b" "f" 10 "t0" =
      (none, (SVNetPy.StorageNetwork.empty.add_node
        (SVNetPy.StorageNode.make "a" 4 16 500 1000)).add_node
        (SVNetPy.StorageNode.make "b" 4 16 5 1000)) :=
  ⟨(C5_initiate_transfer_errors _ SVNetPy.StorageNetwork.empty "a" "b" "f" "t0"
      10).1 (by decide),
   (C5_initiate_transfer_errors _ SVNetPy.StorageNetwork.empty "a" "b" "f" "t0"
      10).2.1 ⟨"b", 4, 16, 5, 1000, 0⟩ (by decide) (by decide) (by decide),
   (C5_initiate_transfer_errors MainPy.StorageVirtualNetwork.empty _ "a" "b"
      "f" "t0" 10).2.2.1 (by decide),
   (C5_initiate_transfer_errors MainPy.StorageVirtualNetwork.empty _ "a" "b"
      "f" "t0" 10).2.2.2 (SVNetPy.StorageNode.make "b" 4 16 5 1000) (by decide)
      (by decide) (by decide)⟩

/-- Claim C7 counterexample: in `main.py`, `connect_nodes "a" "b"` with
`"b"` absent from the registry does not fail at all — it unconditionally
records the link in the network-level connection map (the claim requires
a `NodeNotFound` failure with no mutation). -/
theorem C7_connect_counterexample :
    findVal "b" c7net.nodes = none ∧
    c7net.connections = [] ∧
    (c7net.connect_nodes "a" "b" 1000).connections = [("a-b", ⟨1000, 0⟩)] := by
  decide

/-- Claim C7 as amended: the `storage_virtual_network.py` variant behaves
as claimed — `connect_nodes` returns `False` and mutates nothing when
either id is absent, and otherwise records the bandwidth in both nodes'
connection maps; the `main.py` variant (see the counterexample) instead
performs no membership check and stores a single directed entry in a
network-level map. -/
theorem C7_connect_amended (net : SVNetPy.StorageNetwork) (a b : String)
    (bw : Nat) :
    ((findVal a net.nodes).isNone ∨ (findVal b net.nodes).isNone →
      net.connect_nodes a b bw = (false, net)) ∧
    (∀ na nb, a ≠ b → findVal a net.nodes = some na →
      findVal b net.nodes = some nb →
      (net.connect_nodes a b bw).1 = true ∧
      findVal a (net.connect_nodes a b bw).2.nodes =
        some (na.add_connection b bw) ∧
      findVal b (net.connect_nodes a b bw).2.nodes =
        some (nb.add_connection a bw) ∧
      findVal b (na.add_connection b bw).connections = some bw ∧
      findVal a (nb.add_connection a bw).connections = some bw) := by
  constructor
  · intro h
    rcases h with h | h <;> rw [Option.isNone_iff_eq_none] at h <;>
      simp [SVNetPy.StorageNetwork.connect_nodes, h]
  · intro na nb hab ha hb
    have hba : b ≠ a := Ne.symm hab
    have hb1 : findVal b (setVal a (na.add_connection b bw) net.nodes) =
        some nb := by
      rw [findVal_setVal_ne b a _ _ hab]
      exact hb
    have hred : net.connect_nodes a b bw =
        (true, { net with nodes := setVal b (nb.add_connection a bw) (setVal a (na.add_connection b bw) net.nodes) }) := by
      simp [SVNetPy.StorageNetwork.connect_nodes, ha, hb, hb1]
    refine ⟨by rw [hred], ?_, ?_, ?_, ?_⟩
    · rw [hred]
      show findVal a (setVal b _ (setVal a _ net.nodes)) = _
      rw [findVal_setVal_ne a b _ _ hba, findVal_setVal_self]
    · rw [hred]
      show findVal b (setVal b _ (setVal a _ net.nodes)) = _
      rw [findVal_setVal_self]
    · rw [SVNetPy.StorageNode.add_connection]
      exact findVal_setVal_self b bw na.connections
    · rw [SVNetPy.StorageNode.add_connection]
      exact findVal_setVal_self a bw nb.connections

/-- Witness for C7's amended theorem: both the absent-id branch and the
successful bidirectional branch at concrete states. -/
theorem C7_connect_amended_witness :
    (SVNetPy.StorageNetwork.empty.add_node
        (SVNetPy.StorageNode.make "a" 4 16 500 1000)).connect_nodes "a" "b" 77 =
      (false, SVNetPy.StorageNetwork.empty.add_node
        (SVNetPy.StorageNode.make "a" 4 16 500 1000)) ∧
    (((SVNetPy.StorageNetwork.empty.add_node
        (SVNetPy.StorageNode.make "a" 4 16 500 1000)).add_node
        (SVNetPy.StorageNode.make "b" 8 32 1000 2000)).connect_nodes
        "a" "b" 77).1 = true ∧
    findVal "b" ((SVNetPy.StorageNode.make "a" 4 16 500 1000).add_connection
      "b" 77).connections = some 77 :=
  ⟨(C7_connect_amended (SVNetPy.StorageNetwork.empty.add_node
        (SVNetPy.StorageNode.make "a" 4 16 500 1000)) "a" "b" 77).1
      (by decide),
   ((C7_connect_amended ((SVNetPy.StorageNetwork.empty.add_node
        (SVNetPy.StorageNode.make "a" 4 16 500 1000)).add_node
        (SVNetPy.StorageNode.make "b" 8 32 1000 2000)) "a" "b" 77).2
      (SVNetPy.StorageNode.make "a" 4 16 500 1000)
      (SVNetPy.StorageNode.make "b" 8 32 1000 2000)
      (by decide) (by decide) (by decide)).1,
   ((C7_connect_amended ((SVNetPy.StorageNetwork.empty.add_node
        (SVNetPy.StorageNode.make "a" 4 16 500 1000)).add_node
        (SVNetPy.StorageNode.make "b" 8 32 1000 2000)) "a" "b" 77).2
      (SVNetPy.StorageNode.make "a" 4 16 500 1000)
      (SVNetPy.StorageNode.make "b" 8 32 1000 2000)
      (by decide) (by decide) (by decide)).2.2.2.1⟩

/-- Claim C8 counterexample: `main.py`'s `get_storage_utilization`
divides by `storage_capacity` without a guard, so on a zero-capacity
node it raises `ZeroDivisionError` (modelled `none`) instead of
returning a percent of `0` as the claim states. -/
theorem C8_utilization_counterexample :
    c8node.storage_capacity = 0 ∧
    c8node.get_storage_utilization = none := by
  decide

/-- Claim C8 as amended: in `storage_virtual_network.py` both the node's
`get_storage_utilization` and `get_network_stats` compute
`used / capacity * 100` with a guard returning `0` on a zero
denominator; the `main.py` node variant computes the same percent but
faults (`ZeroDivisionError`, modelled `none`) when `storage_capacity`
is `0` (see the counterexample). -/
theorem C8_utilization_amended (n1 : MainPy.StorageVirtualNode)
    (n2 : SVNetPy.StorageNode) (net2 : SVNetPy.StorageNetwork) :
    (n2.get_storage_utilization.utilization_percent =
      if n2.total_storage = 0 then 0
      else ((n2.used_storage : ℚ) / (n2.total_storage : ℚ)) * 100) ∧
    (net2.get_network_stats.storage_utilization =
      if (net2.nodes.map fun p => p.2.total_storage).sum = 0 then 0
      else ((((net2.nodes.map fun p => p.2.used_storage).sum : Nat) : ℚ) /
        (((net2.nodes.map fun p => p.2.total_storage).sum : Nat) : ℚ)) * 100) ∧
    (n1.storage_capacity = 0 → n1.get_storage_utilization = none) ∧
    (n1.storage_capacity ≠ 0 → n1.get_storage_utilization =
      some ⟨n1.used_storage, n1.storage_capacity,
        ((n1.used_storage : ℚ) / (n1.storage_capacity : ℚ)) * 100⟩) := by
  refine ⟨?_, ?_, fun h => ?_, fun h => ?_⟩
  · have hq : n2.get_storage_utilization.utilization_percent =
        if 0 < n2.total_storage then
          ((n2.used_storage : ℚ) / (n2.total_storage : ℚ)) * 100
        else 0 := rfl
    rw [hq]
    by_cases h : n2.total_storage = 0
    · rw [if_pos h, if_neg (by omega)]
    · rw [if_neg h, if_pos (Nat.pos_of_ne_zero h)]
  · have hq : net2.get_network_stats.storage_utilization =
        if 0 < (net2.nodes.map fun p => p.2.total_storage).sum then
          ((((net2.nodes.map fun p => p.2.used_storage).sum : Nat) : ℚ) /
            (((net2.nodes.map fun p => p.2.total_storage).sum : Nat) : ℚ)) * 100
        else 0 := rfl
    rw [hq]
    by_cases h : (net2.nodes.map fun p => p.2.total_storage).sum = 0
    · rw [if_pos h, if_neg (by omega)]
    · rw [if_neg h, if_pos (Nat.pos_of_ne_zero h)]
  · simp [MainPy.StorageVirtualNode.get_storage_utilization, h]
  · simp [MainPy.StorageVirtualNode.get_storage_utilization, h]

/-- Witness for C8's amended theorem: concrete zero- and nonzero-
denominator instances. -/
theorem C8_utilization_amended_witness :
    (SVNetPy.StorageNode.make "m" 1 1 0 1).get_storage_utilization.utilization_percent =
      (if (SVNetPy.StorageNode.make "m" 1 1 0 1).total_storage = 0 then (0 : ℚ)
       else (((SVNetPy.StorageNode.make "m" 1 1 0 1).used_storage : ℚ) /
         ((SVNetPy.StorageNode.make "m" 1 1 0 1).total_storage : ℚ)) * 100) ∧
    (MainPy.StorageVirtualNode.mk "z" 1 1 0 1 0).get_storage_utilization = none ∧
    (MainPy.StorageVirtualNode.mk "u" 1 1 200 1 50).get_storage_utilization =
      some ⟨(MainPy.StorageVirtualNode.mk "u" 1 1 200 1 50).used_storage,
        (MainPy.StorageVirtualNode.mk "u" 1 1 200 1 50).storage_capacity,
        (((MainPy.StorageVirtualNode.mk "u" 1 1 200 1 50).used_storage : ℚ) /
          ((MainPy.StorageVirtualNode.mk "u" 1 1 200 1 50).storage_capacity : ℚ)) *
          100⟩ :=
  ⟨(C8_utilization_amended (MainPy.StorageVirtualNode.mk "z" 1 1 0 1 0)
      (SVNetPy.StorageNode.make "m" 1 1 0 1) SVNetPy.StorageNetwork.empty).1,
   (C8_utilization_amended (MainPy.StorageVirtualNode.mk "z" 1 1 0 1 0)
      (SVNetPy.StorageNode.make "m" 1 1 0 1) SVNetPy.StorageNetwork.empty).2.2.1
      (by decide),
   (C8_utilization_amended (MainPy.StorageVirtualNode.mk "u" 1 1 200 1 50)
      (SVNetPy.StorageNode.make "m" 1 1 0 1) SVNetPy.StorageNetwork.empty).2.2.2
      (by decide)⟩

/-- Claim C10 counterexample: in `main.py`, a transfer with
`total_chunks = 0` (a zero-byte file) makes `get_progress` divide by
zero (`ZeroDivisionError`, modelled `none`) instead of returning `0.0`. -/
theorem C10_progress_counterexample :
    c10t.total_chunks = 0 ∧ c10t.get_progress = none := by
  decide

/-- Claim C10 as amended: `storage_virtual_network.py`'s `get_progress`
does guard the empty chunk list and returns `0.0`; the `main.py` variant
divides by `total_chunks` unguarded, faulting when it is `0` and
otherwise returning the percentage. -/
theorem C10_progress_amended (t2 : SVNetPy.FileTransfer)
    (t1 : MainPy.FileTransfer) :
    (t2.chunks = [] → t2.get_progress = 0) ∧
    (t1.total_chunks = 0 → t1.get_progress = none) ∧
    (t1.total_chunks ≠ 0 → t1.get_progress =
      some (((t1.transferred_chunks : ℚ) / (t1.total_chunks : ℚ)) * 100)) := by
  refine ⟨fun h => ?_, fun h => ?_, fun h => ?_⟩
  · simp [SVNetPy.FileTransfer.get_progress, h]
  · simp [MainPy.FileTransfer.get_progress, h]
  · simp [MainPy.FileTransfer.get_progress, h]

/-- Witness for C10's amended theorem: a zero-byte
`storage_virtual_network.py` transfer really has an empty chunk list and
reports progress `0`; a one-chunk `main.py` transfer reports the
formula's value. -/
theorem C10_progress_amended_witness :
    (SVNetPy.FileTransfer.make "x" "f" 0 "s" (1024 * 1024)).get_progress = 0 ∧
    (MainPy.FileTransfer.make "t1" "a" "b" "f" 5 (1024 * 1024)).get_progress =
      some ((((MainPy.FileTransfer.make "t1" "a" "b" "f" 5
          (1024 * 1024)).transferred_chunks : ℚ) /
        ((MainPy.FileTransfer.make "t1" "a" "b" "f" 5
          (1024 * 1024)).total_chunks : ℚ)) * 100) :=
  ⟨(C10_progress_amended (SVNetPy.FileTransfer.make "x" "f" 0 "s" (1024 * 1024))
      c10t).1 (by decide),
   (C10_progress_amended (SVNetPy.FileTransfer.make "x" "f" 0 "s" (1024 * 1024))
      (MainPy.FileTransfer.make "t1" "a" "b" "f" 5 (1024 * 1024))).2.2
      (by decide)⟩

theorem sum_const_range (n c : Nat) :
    ((List.range n).map fun _ => c).sum = n * c := by
  induction n with
  | zero => simp
  | succ m ih =>
    rw [List.range_succ, List.map_append, List.sum_append, ih]
    simp [Nat.succ_mul]

theorem chunk_sizes_sum (cs fs n : Nat) (h1 : n * cs < fs)
    (h2 : fs ≤ (n + 1) * cs) :
    ((List.range (n + 1)).map fun i => min cs (fs - i * cs)).sum = fs := by
  rw [List.range_succ, List.map_append, List.sum_append]
  have hconst : ((List.range n).map fun i => min cs (fs - i * cs)) =
      (List.range n).map fun _ => cs := by
    apply List.map_congr_left
    intro i hi
    rw [List.mem_range] at hi
    have hle : (i + 1) * cs ≤ n * cs := Nat.mul_le_mul_right cs (by omega)
    have hs : (i + 1) * cs = i * cs + 1 * cs := Nat.add_mul i 1 cs
    have h1cs : 1 * cs = cs := Nat.one_mul cs
    exact Nat.min_eq_left (Nat.le_sub_of_add_le (by omega))
  rw [hconst, sum_const_range]
  have hlast : min cs (fs - n * cs) = fs - n * cs := by
    apply Nat.min_eq_right
    have hs : (n + 1) * cs = n * cs + 1 * cs := Nat.add_mul n 1 cs
    have h1cs : 1 * cs = cs := Nat.one_mul cs
    omega
  simp only [List.map_cons, List.map_nil, List.sum_cons, List.sum_nil, hlast]
  omega

theorem ceil_div_bounds (fs cs : Nat) (hcs : 0 < cs) (hfs : 0 < fs) :
    0 < (fs + cs - 1) / cs ∧ ((fs + cs - 1) / cs - 1) * cs < fs ∧
      fs ≤ ((fs + cs - 1) / cs) * cs := by
  have hdm := Nat.div_add_mod (fs + cs - 1) cs
  have hmlt : (fs + cs - 1) % cs < cs := Nat.mod_lt _ hcs
  generalize hq : (fs + cs - 1) / cs = q at hdm ⊢
  generalize hr : (fs + cs - 1) % cs = r at hdm hmlt
  have hq0 : 0 < q := by
    rcases Nat.eq_zero_or_pos q with h0 | h0
    · subst h0
      simp at hdm
      omega
    · exact h0
  have hsub : (q - 1) * cs + cs = q * cs := by
    cases q with
    | zero => omega
    | succ p =>
      simp only [Nat.succ_sub_one]
      rw [Nat.succ_mul]
  have hcomm : q * cs = cs * q := Nat.mul_comm q cs
  refine ⟨hq0, by omega, by omega⟩

/-- The sizes of the generated chunks, as a pure function of the range
index. -/
theorem generate_chunks_map_size (file_id : String) (fs : Nat) :
    ((SVNodePy.generate_chunks file_id fs).map fun c => c.size) =
      (List.range ((fs + SVNodePy.calculate_chunk_size fs - 1) /
        SVNodePy.calculate_chunk_size fs)).map
        fun i => min (SVNodePy.calculate_chunk_size fs)
          (fs - i * SVNodePy.calculate_chunk_size fs) := by
  rw [SVNodePy.generate_chunks, List.map_map]
  rfl

theorem calculate_chunk_size_pos (fs : Nat) :
    0 < SVNodePy.calculate_chunk_size fs := by
  rw [SVNodePy.calculate_chunk_size]
  split
  · decide
  · split
    · decide
    · decide

/-- Claim C3 counterexample: `main.py`'s `FileTransfer` always uses the
constructor default of 1 MiB chunks, so a 5 MiB file — which the claim
says gets 512 KiB chunks, hence 10 of them — gets 1 MiB chunks and a
count of 5. -/
theorem C3_chunking_counterexample :
    5 * 1024 * 1024 < 10 * 1024 * 1024 ∧
    c3t.chunk_size = 1024 * 1024 ∧
    ¬ c3t.chunk_size = 512 * 1024 ∧
    c3t.total_chunks = 5 ∧
    ¬ c3t.total_chunks = 10 := by
  decide

/-- Claim C3 as amended: the thresholded policy (512 KiB below 10 MiB,
2 MiB below 100 MiB, 10 MiB above), the ceiling chunk count, the final
chunk size `file_size - (num_chunks - 1) * chunk_size` and the exact sum
all hold for `storage_virtual_node.py`'s `_generate_chunks`;
`main.py`'s `FileTransfer` instead uses its constructor's fixed default
chunk size of 1 MiB with count `ceil(file_size / 2^20)` (see the
counterexample). -/
theorem C3_chunking_amended (file_size : Nat) (file_id : String)
    (h : 0 < file_size) :
    (file_size < 10 * 1024 * 1024 →
      SVNodePy.calculate_chunk_size file_size = 512 * 1024) ∧
    (10 * 1024 * 1024 ≤ file_size → file_size < 100 * 1024 * 1024 →
      SVNodePy.calculate_chunk_size file_size = 2 * 1024 * 1024) ∧
    (100 * 1024 * 1024 ≤ file_size →
      SVNodePy.calculate_chunk_size file_size = 10 * 1024 * 1024) ∧
    (SVNodePy.generate_chunks file_id file_size).length =
      (file_size + SVNodePy.calculate_chunk_size file_size - 1) /
        SVNodePy.calculate_chunk_size file_size ∧
    ((SVNodePy.generate_chunks file_id file_size).map fun c => c.size).sum =
      file_size ∧
    ((SVNodePy.generate_chunks file_id file_size).map fun c => c.size).getLast? =
      some (file_size -
        ((SVNodePy.generate_chunks file_id file_size).length - 1) *
          SVNodePy.calculate_chunk_size file_size) ∧
    (∀ fid s t name : String,
      (MainPy.FileTransfer.make fid s t name file_size
        (1024 * 1024)).chunk_size = 1024 * 1024 ∧
      (MainPy.FileTransfer.make fid s t name file_size
        (1024 * 1024)).total_chunks =
        (file_size + 1024 * 1024 - 1) / (1024 * 1024)) := by
  have hcs : 0 < SVNodePy.calculate_chunk_size file_size :=
    calculate_chunk_size_pos file_size
  obtain ⟨hq0, hlt, hle⟩ :=
    ceil_div_bounds file_size (SVNodePy.calculate_chunk_size file_size) hcs h
  have hlen : (SVNodePy.generate_chunks file_id file_size).length =
      (file_size + SVNodePy.calculate_chunk_size file_size - 1) /
        SVNodePy.calculate_chunk_size file_size := by
    rw [SVNodePy.generate_chunks]
    simp
  refine ⟨fun h1 => ?_, fun h1 h2 => ?_, fun h1 => ?_, hlen, ?_, ?_, ?_⟩
  · rw [SVNodePy.calculate_chunk_size, if_pos h1]
  · rw [SVNodePy.calculate_chunk_size, if_neg (by omega), if_pos h2]
  · rw [SVNodePy.calculate_chunk_size, if_neg (by omega), if_neg (by omega)]
  · rw [generate_chunks_map_size]
    have hn : (file_size + SVNodePy.calculate_chunk_size file_size - 1) /
        SVNodePy.calculate_chunk_size file_size =
        ((file_size + SVNodePy.calculate_chunk_size file_size - 1) /
          SVNodePy.calculate_chunk_size file_size - 1) + 1 := by omega
    rw [hn]
    apply chunk_sizes_sum
    · exact hlt
    · rw [← hn]
      exact hle
  · rw [generate_chunks_map_size, hlen]
    generalize hqq : (file_size + SVNodePy.calculate_chunk_size file_size - 1) /
      SVNodePy.calculate_chunk_size file_size = q at hq0 hlt hle ⊢
    have hn : q = (q - 1) + 1 := by omega
    have hmin : min (SVNodePy.calculate_chunk_size file_size)
        (file_size - (q - 1) * SVNodePy.calculate_chunk_size file_size) =
        file_size - (q - 1) * SVNodePy.calculate_chunk_size file_size := by
      apply Nat.min_eq_right
      have hs : ((q - 1) + 1) * SVNodePy.calculate_chunk_size file_size =
          (q - 1) * SVNodePy.calculate_chunk_size file_size +
            1 * SVNodePy.calculate_chunk_size file_size :=
        Nat.add_mul (q - 1) 1 _
      have h1cs : 1 * SVNodePy.calculate_chunk_size file_size =
          SVNodePy.calculate_chunk_size file_size :=
        Nat.one_mul _
      rw [← hn] at hs
      omega
    rw [hn, List.range_succ, List.map_append]
    simp only [List.map_cons, List.map_nil]
    rw [List.getLast?_concat]
    simp only [Nat.add_sub_cancel]
    rw [hmin]
  · intro fid s t name
    exact ⟨rfl, rfl⟩

/-- Witness for C3's amended theorem: the 100 MiB file of the demo
driver gets 10 MiB chunks, ten of them, summing exactly. -/
theorem C3_chunking_amended_witness :
    SVNodePy.calculate_chunk_size (100 * 1024 * 1024) = 10 * 1024 * 1024 ∧
    ((SVNodePy.generate_chunks "w" (100 * 1024 * 1024)).map
      fun c => c.size).sum = 100 * 1024 * 1024 ∧
    (SVNodePy.generate_chunks "w" (100 * 1024 * 1024)).length =
      (100 * 1024 * 1024 + SVNodePy.calculate_chunk_size (100 * 1024 * 1024) -
        1) / SVNodePy.calculate_chunk_size (100 * 1024 * 1024) :=
  ⟨(C3_chunking_amended (100 * 1024 * 1024) "w" (by decide)).2.2.1 (by decide),
   (C3_chunking_amended (100 * 1024 * 1024) "w" (by decide)).2.2.2.2.1,
   (C3_chunking_amended (100 * 1024 * 1024) "w" (by decide)).2.2.2.1⟩

theorem findVal_mem (k : String) (l : List (String × α)) (v : α)
    (h : findVal k l = some v) : (k, v) ∈ l := by
  induction l with
  | nil => simp [findVal] at h
  | cons q t ih =>
    obtain ⟨k', v'⟩ := q
    by_cases hk : k' = k
    · subst hk
      simp [findVal] at h
      subst h
      exact List.mem_cons_self _ _
    · simp [findVal, hk] at h
      exact List.mem_cons_of_mem _ (ih h)

theorem allocate_bounded (n : MainPy.StorageVirtualNode) (size : Nat)
    (h : n.used_storage ≤ n.storage_capacity) :
    (n.allocate_storage size).2.used_storage ≤
      (n.allocate_storage size).2.storage_capacity := by
  rw [MainPy.StorageVirtualNode.allocate_storage]
  split
  · rename_i hc
    exact hc
  · exact h

theorem free_bounded (n : MainPy.StorageVirtualNode) (size : Nat)
    (h : n.used_storage ≤ n.storage_capacity) :
    (n.free_storage size).used_storage ≤
      (n.free_storage size).storage_capacity := by
  rw [MainPy.StorageVirtualNode.free_storage]
  simp only
  omega

theorem nodesBounded_setVal (l : List (String × MainPy.StorageVirtualNode))
    (k : String) (v : MainPy.StorageVirtualNode)
    (hl : ∀ p ∈ l, p.2.used_storage ≤ p.2.storage_capacity)
    (hv : v.used_storage ≤ v.storage_capacity) :
    ∀ p ∈ setVal k v l, p.2.used_storage ≤ p.2.storage_capacity := by
  intro p hp
  rcases mem_setVal k v l p hp with h | h
  · subst h
    exact hv
  · exact hl p h

theorem applyOp_bounded (net : MainPy.StorageVirtualNetwork)
    (op : MainPy.NetOp) (hnet : MainPy.NodesBounded net)
    (hop : ∀ nd, op = MainPy.NetOp.addnode nd →
      nd.used_storage ≤ nd.storage_capacity) :
    MainPy.NodesBounded (MainPy.applyOp net op) := by
  cases op with
  | addnode nd =>
    exact nodesBounded_setVal net.nodes nd.id nd hnet (hop nd rfl)
  | connect a b bw => exact hnet
  | initiate src tgt name size =>
    unfold MainPy.NodesBounded
    unfold MainPy.applyOp MainPy.StorageVirtualNetwork.initiate_file_transfer
    cases hs : findVal src net.nodes with
    | none => simp only [hs]; exact hnet
    | some snode =>
      cases ht : findVal tgt net.nodes with
      | none => simp only [hs, ht]; exact hnet
      | some tnode =>
        simp only [hs, ht]
        split
        · exact nodesBounded_setVal net.nodes tgt _ hnet
            (allocate_bounded tnode size (hnet _ (findVal_mem tgt net.nodes tnode ht)))
        · exact hnet
  | advance src tgt fid k =>
    unfold MainPy.NodesBounded
    unfold MainPy.applyOp MainPy.StorageVirtualNetwork.process_file_transfer
    cases hf : findVal fid net.active_transfers with
    | none => simp only [hf]; exact hnet
    | some tr =>
      simp only [hf]
      split
      · exact hnet
      · exact hnet
  | reserve nid size =>
    unfold MainPy.NodesBounded MainPy.applyOp
    cases hn : findVal nid net.nodes with
    | none => simp only [hn]; exact hnet
    | some nd =>
      simp only [hn]
      exact nodesBounded_setVal net.nodes nid _ hnet
        (allocate_bounded nd size (hnet _ (findVal_mem nid net.nodes nd hn)))
  | release nid size =>
    unfold MainPy.NodesBounded MainPy.applyOp
    cases hn : findVal nid net.nodes with
    | none => simp only [hn]; exact hnet
    | some nd =>
      simp only [hn]
      exact nodesBounded_setVal net.nodes nid _ hnet
        (free_bounded nd size (hnet _ (findVal_mem nid net.nodes nd hn)))

theorem applyOps_bounded : ∀ (ops : List MainPy.NetOp)
    (net : MainPy.StorageVirtualNetwork), MainPy.NodesBounded net →
    (∀ nd, MainPy.NetOp.addnode nd ∈ ops →
      nd.used_storage ≤ nd.storage_capacity) →
    MainPy.NodesBounded (MainPy.applyOps net ops) := by
  intro ops
  induction ops with
  | nil =>
    intro net h _
    exact h
  | cons op t ih =>
    intro net hnet hadd
    rw [MainPy.applyOps, List.foldl_cons]
    refine ih (MainPy.applyOp net op) ?_ ?_
    · refine applyOp_bounded net op hnet ?_
      intro nd hop
      refine hadd nd ?_
      rw [← hop]
      exact List.mem_cons_self _ _
    · intro nd hm
      exact hadd nd (List.mem_cons_of_mem _ hm)

set_option maxRecDepth 100000 in
/-- Claim C6 counterexample: in `storage_virtual_node.py`, two transfers
that each fit the free capacity at initiation time are both admitted
(initiation checks but does not reserve), and completing both drives
`used_storage` to `2^30 + 1`, strictly above `total_storage = 2^30` —
the invariant `used_storage ≤ storage_capacity` is violated by a
sequence of public operations. -/
theorem C6_invariant_counterexample :
    (c6node.initiate_file_transfer "fA" "A" (2 ^ 29)).1.isSome ∧
    (c6afterA.initiate_file_transfer "fB" "B" (2 ^ 29 + 1)).1.isSome ∧
    c6final.total_storage = 2 ^ 30 ∧
    c6final.used_storage = 2 ^ 30 + 1 ∧
    c6final.total_storage < c6final.used_storage := by
  decide

/-- Claim C6 as amended: for `main.py`'s network (the check-and-increment
accounting cited by the claim), `used_storage ≤ storage_capacity` holds
on every registered node after any sequence of the public operations
(reserve/allocate, release/free, initiate, advance, connect — and
add_node of any in-bounds node); `0 ≤ used_storage` holds by
representation, and `free_storage` floors at zero:
`used' = max(0, used - size)` over ℤ.  The deferred accounting of
`storage_virtual_node.py` violates the bound (see the counterexample). -/
theorem C6_invariant_amended (net : MainPy.StorageVirtualNetwork)
    (ops : List MainPy.NetOp) (n : MainPy.StorageVirtualNode) (size : Nat)
    (hnet : MainPy.NodesBounded net)
    (hadd : ∀ nd, MainPy.NetOp.addnode nd ∈ ops →
      nd.used_storage ≤ nd.storage_capacity) :
    MainPy.NodesBounded (MainPy.applyOps net ops) ∧
    ((n.free_storage size).used_storage : ℤ) =
      max 0 ((n.used_storage : ℤ) - (size : ℤ)) := by
  constructor
  · exact applyOps_bounded ops net hnet hadd
  · rw [MainPy.StorageVirtualNode.free_storage]
    simp only
    omega

theorem C6_invariant_amended_witness :
    MainPy.NodesBounded (MainPy.applyOps c6wnet c6wops) ∧
    (((MainPy.StorageVirtualNode.mk "z" 1 1 10 1 3).free_storage
        8).used_storage : ℤ) = max 0 (((3 : Nat) : ℤ) - ((8 : Nat) : ℤ)) :=
  ⟨(C6_invariant_amended c6wnet c6wops (MainPy.StorageVirtualNode.mk "z" 1 1 10 1 3)
      8 (by unfold MainPy.NodesBounded; decide)
      (by intro nd h; simp [c6wops] at h; subst h; decide)).1,
   (C6_invariant_amended c6wnet c6wops (MainPy.StorageVirtualNode.mk "z" 1 1 10 1 3)
      8 (by unfold MainPy.NodesBounded; decide)
      (by intro nd h; simp [c6wops] at h; subst h; decide)).2⟩

/-- Claim C9 counterexample: in `storage_virtual_network.py` the
transfer id is `md5(f"{file_name}-{time.time()}")`, so two successful
initiations of the same file name at the same clock reading get the
SAME id — uniqueness over the network's lifetime fails. -/
theorem C9_transfer_id_counterexample :
    c9r1.1.isSome ∧ c9r2.1.isSome ∧
    (c9r1.1.map fun t => t.file_id) = (c9r2.1.map fun t => t.file_id) := by
  decide

theorem transfer_id_inj (m n : Nat)
    (h : "transfer_" ++ natToString m = "transfer_" ++ natToString n) :
    m = n :=
  natToString_injective (string_append_left_cancel h)

/-- The success case of `main.py`'s `initiate_file_transfer`, fully
characterized. -/
theorem initiate1_success_char (net : MainPy.StorageVirtualNetwork)
    (src tgt name : String) (size : Nat)
    (snode tnode : MainPy.StorageVirtualNode)
    (hs : findVal src net.nodes = some snode)
    (ht : findVal tgt net.nodes = some tnode)
    (hok : (tnode.allocate_storage size).1 = true) :
    net.initiate_file_transfer src tgt name size =
      (some (MainPy.FileTransfer.make
          ("transfer_" ++ natToString net.transfer_counter) src tgt name size
          (1024 * 1024)),
        { net with
            nodes := setVal tgt (tnode.allocate_storage size).2 net.nodes,
            transfer_counter := net.transfer_counter + 1,
            active_transfers :=
              setVal ("transfer_" ++ natToString net.transfer_counter)
                (MainPy.FileTransfer.make
                  ("transfer_" ++ natToString net.transfer_counter) src tgt
                  name size (1024 * 1024)) net.active_transfers }) := by
  simp [MainPy.StorageVirtualNetwork.initiate_file_transfer, hs, ht, hok]

theorem initiate1_success_id (net : MainPy.StorageVirtualNetwork)
    (src tgt name : String) (size : Nat) (tr : MainPy.FileTransfer)
    (h : (net.initiate_file_transfer src tgt name size).1 = some tr) :
    tr.file_id = "transfer_" ++ natToString net.transfer_counter ∧
    (net.initiate_file_transfer src tgt name size).2.transfer_counter =
      net.transfer_counter + 1 := by
  cases hs : findVal src net.nodes with
  | none =>
    rw [MainPy.StorageVirtualNetwork.initiate_file_transfer, hs] at h
    simp at h
  | some snode =>
    cases ht : findVal tgt net.nodes with
    | none =>
      rw [MainPy.StorageVirtualNetwork.initiate_file_transfer, hs, ht] at h
      simp at h
    | some tnode =>
      by_cases hok : (tnode.allocate_storage size).1 = true
      · have hc := initiate1_success_char net src tgt name size snode tnode hs
          ht hok
        rw [hc] at h ⊢
        simp only [Option.some.injEq] at h
        subst h
        exact ⟨rfl, rfl⟩
      · rw [MainPy.StorageVirtualNetwork.initiate_file_transfer, hs, ht] at h
        simp only [Bool.not_eq_true] at hok
        simp [hok] at h

theorem applyOp_counter_le (net : MainPy.StorageVirtualNetwork)
    (op : MainPy.NetOp) :
    net.transfer_counter ≤ (MainPy.applyOp net op).transfer_counter := by
  cases op with
  | addnode nd => exact Nat.le_refl _
  | connect a b bw => exact Nat.le_refl _
  | initiate src tgt name size =>
    unfold MainPy.applyOp MainPy.StorageVirtualNetwork.initiate_file_transfer
    cases hs : findVal src net.nodes with
    | none =>
      simp only [hs]
      exact Nat.le_refl _
    | some snode =>
      cases ht : findVal tgt net.nodes with
      | none =>
        simp only [hs, ht]
        exact Nat.le_refl _
      | some tnode =>
        simp only [hs, ht]
        split
        · show net.transfer_counter ≤ net.transfer_counter + 1
          omega
        · exact Nat.le_refl _
  | advance src tgt fid k =>
    unfold MainPy.applyOp MainPy.StorageVirtualNetwork.process_file_transfer
    cases hf : findVal fid net.active_transfers with
    | none =>
      simp only [hf]
      exact Nat.le_refl _
    | some tr =>
      simp only [hf]
      split
      · exact Nat.le_refl _
      · exact Nat.le_refl _
  | reserve nid size =>
    unfold MainPy.applyOp
    cases hn : findVal nid net.nodes with
    | none =>
      simp only [hn]
      exact Nat.le_refl _
    | some nd =>
      simp only [hn]
      exact Nat.le_refl _
  | release nid size =>
    unfold MainPy.applyOp
    cases hn : findVal nid net.nodes with
    | none =>
      simp only [hn]
      exact Nat.le_refl _
    | some nd =>
      simp only [hn]
      exact Nat.le_refl _

theorem applyOps_counter_le (ops : List MainPy.NetOp) :
    ∀ net : MainPy.StorageVirtualNetwork,
      net.transfer_counter ≤ (MainPy.applyOps net ops).transfer_counter := by
  induction ops with
  | nil =>
    intro net
    exact Nat.le_refl _
  | cons op t ih =>
    intro net
    rw [MainPy.applyOps, List.foldl_cons]
    exact Nat.le_trans (applyOp_counter_le net op) (ih (MainPy.applyOp net op))

/-- Claim C9 as amended: in `main.py`, ids are `f"transfer_{counter}"`
with a network-lifetime counter that never decreases and is bumped by
every successful initiation, so any two successful
`initiate_file_transfer` calls — separated by an arbitrary sequence of
public operations — return transfers with distinct ids.  In
`storage_virtual_network.py`, ids are `md5(f"{file_name}-{time.time()}")`
and two initiations of the same file name at the same clock reading
collide (see the counterexample). -/
theorem C9_transfer_id_amended (net : MainPy.StorageVirtualNetwork)
    (ops : List MainPy.NetOp) (s1 t1 n1 s2 t2 n2 : String) (sz1 sz2 : Nat)
    (tr1 tr2 : MainPy.FileTransfer)
    (h1 : (net.initiate_file_transfer s1 t1 n1 sz1).1 = some tr1)
    (h2 : ((MainPy.applyOps (net.initiate_file_transfer s1 t1 n1 sz1).2
      ops).initiate_file_transfer s2 t2 n2 sz2).1 = some tr2) :
    tr1.file_id ≠ tr2.file_id := by
  obtain ⟨hid1, hc1⟩ := initiate1_success_id net s1 t1 n1 sz1 tr1 h1
  obtain ⟨hid2, _⟩ := initiate1_success_id _ s2 t2 n2 sz2 tr2 h2
  intro heq
  rw [hid1, hid2] at heq
  have hmono := applyOps_counter_le ops (net.initiate_file_transfer s1 t1 n1 sz1).2
  have := transfer_id_inj _ _ heq
  omega

theorem C9_transfer_id_amended_witness : c9wtr1.file_id ≠ c9wtr2.file_id :=
  C9_transfer_id_amended c9wnet [] "a" "b" "f" "a" "b" "g" 10 20 c9wtr1 c9wtr2
    (by decide) (by decide)

/-- Claim C4 counterexample: in `storage_virtual_node.py` a successful
initiation leaves `used_storage` at 0 (not incremented by the 1000-byte
file size as the claim states), and the advance call that completes the
last chunk is what adds the 1000 bytes. -/
theorem C4_eager_reservation_counterexample :
    c4r.1.isSome ∧ c4r.2.used_storage = 0 ∧ c4done.used_storage = 1000 := by
  decide

/-- The success case of `storage_virtual_network.py`'s
`initiate_file_transfer`, fully characterized. -/
theorem initiate2_success_char (net : SVNetPy.StorageNetwork)
    (src tgt name : String) (size : Nat) (now : String)
    (tnode : SVNetPy.StorageNode)
    (hsrc : (findVal src net.nodes).isSome = true)
    (ht : findVal tgt net.nodes = some tnode)
    (hok : (tnode.allocate_storage size).1 = true) :
    net.initiate_file_transfer src tgt name size now =
      (some { SVNetPy.FileTransfer.make (md5_hexdigest (name ++ "-" ++ now))
          name size src (1024 * 1024) with
          status := SVNetPy.TransferStatus.in_progress },
        { net with
            nodes := setVal tgt
              { (tnode.allocate_storage size).2 with
                  active_transfers :=
                    SVNetPy.insertKey (md5_hexdigest (name ++ "-" ++ now))
                      (tnode.allocate_storage size).2.active_transfers }
              net.nodes,
            transfers := setVal (md5_hexdigest (name ++ "-" ++ now))
              { SVNetPy.FileTransfer.make (md5_hexdigest (name ++ "-" ++ now))
                  name size src (1024 * 1024) with
                  status := SVNetPy.TransferStatus.in_progress }
              net.transfers,
            transfer_operations := setVal src
              (SVNetPy.insertKey (md5_hexdigest (name ++ "-" ++ now))
                (net.opsOf src)) net.transfer_operations }) := by
  have hg : (findVal src net.nodes).isSome = true ∧
      (findVal tgt net.nodes).isSome = true := by
    simp [hsrc, ht]
  rw [SVNetPy.StorageNetwork.initiate_file_transfer, if_pos hg, ht]
  simp only [SVNetPy.StorageNode.initiate_file_transfer, hok, if_true]

/-- Claim C4 as amended: in `main.py` and `storage_virtual_network.py`
storage IS reserved eagerly — every successful `initiate_file_transfer`
increments the target's `used_storage` by `file_size` at initiation, and
`process_file_transfer` (including the completing call) never changes
any node — while `storage_virtual_node.py` checks capacity at initiation
but adds `total_size` to `used_storage` only when the last chunk
completes (see the counterexample). -/
theorem C4_eager_reservation_amended
    (net1 : MainPy.StorageVirtualNetwork) (net2 : SVNetPy.StorageNetwork)
    (src tgt name fid now : String) (size k : Nat) :
    (∀ tnode tr, findVal tgt net1.nodes = some tnode →
      (net1.initiate_file_transfer src tgt name size).1 = some tr →
      ((findVal tgt (net1.initiate_file_transfer src tgt name size).2.nodes).map
        fun nd => nd.used_storage) = some (tnode.used_storage + size)) ∧
    ((net1.process_file_transfer src tgt fid k).2.nodes = net1.nodes) ∧
    (∀ tnode tr, findVal tgt net2.nodes = some tnode →
      (net2.initiate_file_transfer src tgt name size now).1 = some tr →
      ((findVal tgt (net2.initiate_file_transfer src tgt name size
          now).2.nodes).map fun nd => nd.used_storage) =
        some (tnode.used_storage + size)) ∧
    ((net2.process_file_transfer src tgt fid k).2.nodes = net2.nodes) := by
  refine ⟨fun tnode tr ht h => ?_, ?_, fun tnode tr ht h => ?_, ?_⟩
  · cases hs : findVal src net1.nodes with
    | none =>
      rw [MainPy.StorageVirtualNetwork.initiate_file_transfer, hs] at h
      simp at h
    | some snode =>
      by_cases hok : (tnode.allocate_storage size).1 = true
      · have hc := initiate1_success_char net1 src tgt name size snode tnode hs
          ht hok
        rw [hc]
        simp only
        rw [findVal_setVal_self]
        have : (tnode.allocate_storage size).2.used_storage =
            tnode.used_storage + size := by
          rw [MainPy.StorageVirtualNode.allocate_storage] at hok ⊢
          split at hok
          · rename_i hcap
            rw [if_pos hcap]
          · simp at hok
        simp [this]
      · rw [MainPy.StorageVirtualNetwork.initiate_file_transfer, hs, ht] at h
        simp only [Bool.not_eq_true] at hok
        simp [hok] at h
  · rw [MainPy.StorageVirtualNetwork.process_file_transfer]
    cases hf : findVal fid net1.active_transfers with
    | none => rfl
    | some tr =>
      simp only
      split
      · rfl
      · rfl
  · by_cases hg : (findVal src net2.nodes).isSome = true ∧
        (findVal tgt net2.nodes).isSome = true
    · by_cases hok : (tnode.allocate_storage size).1 = true
      · have hc := initiate2_success_char net2 src tgt name size now tnode
          hg.1 ht hok
        rw [hc]
        simp only
        rw [findVal_setVal_self]
        have : (tnode.allocate_storage size).2.used_storage =
            tnode.used_storage + size := by
          rw [SVNetPy.StorageNode.allocate_storage] at hok ⊢
          split at hok
          · rename_i hcap
            rw [if_pos hcap]
          · simp at hok
        simp [this]
      · rw [Bool.not_eq_true] at hok
        rw [SVNetPy.StorageNetwork.initiate_file_transfer, if_pos hg, ht] at h
        simp only [SVNetPy.StorageNode.initiate_file_transfer, hok,
          Bool.false_eq_true, if_false] at h
        simp at h
    · rw [SVNetPy.StorageNetwork.initiate_file_transfer, if_neg hg] at h
      simp at h
  · rw [SVNetPy.StorageNetwork.process_file_transfer]
    repeat' split
    all_goals rfl

theorem C4_eager_reservation_amended_witness :
    ((findVal "b" (c4wnet1.initiate_file_transfer "a" "b" "f" 10).2.nodes).map
      fun nd => nd.used_storage) = some (0 + 10) ∧
    (c4wnet1.process_file_transfer "a" "b" "transfer_9" 3).2.nodes =
      c4wnet1.nodes :=
  ⟨(C4_eager_reservation_amended c4wnet1 SVNetPy.StorageNetwork.empty "a" "b"
      "f" "transfer_9" "t0" 10 3).1 ⟨"b", 4, 16, 500, 1000, 0⟩
      (MainPy.FileTransfer.make ("transfer_" ++ natToString 0) "a" "b" "f" 10
        (1024 * 1024)) (by decide) (by decide),
   (C4_eager_reservation_amended c4wnet1 SVNetPy.StorageNetwork.empty "a" "b"
      "f" "transfer_9" "t0" 10 3).2.1⟩

theorem markFirst_zero (S : List SVNetPy.ChunkInfo) :
    SVNetPy.markFirst 0 S = (0, S) := by
  induction S with
  | nil => rfl
  | cons c cs ih =>
    rw [SVNetPy.markFirst]
    split
    · rw [if_neg (by omega)]
    · rw [ih]

theorem pendingCount_nil : SVNetPy.pendingCount [] = 0 := rfl

theorem pendingCount_cons (c : SVNetPy.ChunkInfo)
    (cs : List SVNetPy.ChunkInfo) :
    SVNetPy.pendingCount (c :: cs) =
      SVNetPy.pendingCount cs +
        if c.status = SVNetPy.TransferStatus.completed then 0 else 1 := by
  rw [SVNetPy.pendingCount, List.countP_cons]
  by_cases h : c.status = SVNetPy.TransferStatus.completed <;>
    simp [SVNetPy.pendingCount, h]

theorem pendingCount_append (P S : List SVNetPy.ChunkInfo) :
    SVNetPy.pendingCount (P ++ S) =
      SVNetPy.pendingCount P + SVNetPy.pendingCount S := by
  rw [SVNetPy.pendingCount, List.countP_append]
  rfl

theorem markFirst_no_pending (k : Nat) (S : List SVNetPy.ChunkInfo)
    (h : SVNetPy.pendingCount S = 0) : SVNetPy.markFirst k S = (0, S) := by
  induction S generalizing k with
  | nil => rfl
  | cons c cs ih =>
    rw [pendingCount_cons] at h
    rw [SVNetPy.markFirst]
    split
    · rename_i hc
      rw [if_neg hc] at h
      omega
    · rw [ih k (by omega)]

theorem markFirst_count (k : Nat) (S : List SVNetPy.ChunkInfo) :
    (SVNetPy.markFirst k S).1 = min k (SVNetPy.pendingCount S) := by
  induction S generalizing k with
  | nil => simp [SVNetPy.markFirst, pendingCount_nil]
  | cons c cs ih =>
    rw [SVNetPy.markFirst, pendingCount_cons]
    split
    · by_cases hk : 0 < k
      · rw [if_pos hk]
        simp only
        rw [ih (k - 1)]
        omega
      · rw [if_neg hk]
        simp only
        omega
    · rename_i hc
      rw [not_not] at hc
      simp only
      rw [ih k]
      simp only [if_pos hc]
      omega

theorem markFirst_pending (k : Nat) (S : List SVNetPy.ChunkInfo) :
    SVNetPy.pendingCount (SVNetPy.markFirst k S).2 =
      SVNetPy.pendingCount S - (SVNetPy.markFirst k S).1 := by
  induction S generalizing k with
  | nil => simp [SVNetPy.markFirst, pendingCount_nil]
  | cons c cs ih =>
    rw [SVNetPy.markFirst]
    split
    · rename_i hc
      by_cases hk : 0 < k
      · rw [if_pos hk]
        simp only
        rw [pendingCount_cons, pendingCount_cons, ih (k - 1), markFirst_count]
        simp only [if_neg hc, if_true]
        omega
      · rw [if_neg hk]
        simp only
        omega
    · rename_i hc
      rw [not_not] at hc
      simp only
      rw [pendingCount_cons, pendingCount_cons, ih k]
      simp only [if_pos hc]
      have := markFirst_count k cs
      omega

theorem all_completed_iff (l : List SVNetPy.ChunkInfo) :
    (l.all fun c => c.status == SVNetPy.TransferStatus.completed) = true ↔
      SVNetPy.pendingCount l = 0 := by
  rw [List.all_eq_true, SVNetPy.pendingCount, List.countP_eq_zero]
  constructor
  · intro h a ha
    simp [h a ha]
  · intro h a ha
    have := h a ha
    simpa using this

theorem findMarkChunk_mark (c : SVNetPy.ChunkInfo)
    (hc : c.status ≠ SVNetPy.TransferStatus.completed) :
    ∀ (P S : List SVNetPy.ChunkInfo),
      (∀ p ∈ P, p.chunk_id ≠ c.chunk_id) →
      SVNetPy.findMarkChunk c.chunk_id (P ++ c :: S) =
        some (P ++ { c with status := SVNetPy.TransferStatus.completed } :: S) := by
  intro P
  induction P with
  | nil =>
    intro S _
    rw [List.nil_append, SVNetPy.findMarkChunk, if_pos ⟨rfl, hc⟩,
      List.nil_append]
  | cons p P' ih =>
    intro S hP
    rw [List.cons_append, SVNetPy.findMarkChunk,
      if_neg (by
        intro hcontra
        exact hP p (List.mem_cons_self _ _) hcontra.1),
      ih S (fun q hq => hP q (List.mem_cons_of_mem _ hq)), List.cons_append]

theorem markStep_chunks (t : SVNetPy.FileTransfer)
    (P S : List SVNetPy.ChunkInfo) (c : SVNetPy.ChunkInfo) :
    (SVNetPy.markStep t P S c).chunks =
      P ++ { c with status := SVNetPy.TransferStatus.completed } :: S := by
  rw [SVNetPy.markStep]
  split <;> rfl

theorem markStep_status_done (t : SVNetPy.FileTransfer)
    (P S : List SVNetPy.ChunkInfo) (c : SVNetPy.ChunkInfo)
    (h : SVNetPy.pendingCount
      (P ++ { c with status := SVNetPy.TransferStatus.completed } :: S) = 0) :
    (SVNetPy.markStep t P S c).status = SVNetPy.TransferStatus.completed := by
  rw [SVNetPy.markStep, if_pos h]

theorem markStep_status_keep (t : SVNetPy.FileTransfer)
    (P S : List SVNetPy.ChunkInfo) (c : SVNetPy.ChunkInfo)
    (h : ¬ SVNetPy.pendingCount
      (P ++ { c with status := SVNetPy.TransferStatus.completed } :: S) = 0) :
    (SVNetPy.markStep t P S c).status = t.status := by
  rw [SVNetPy.markStep, if_neg h]

theorem markStep_fields (t : SVNetPy.FileTransfer)
    (P S : List SVNetPy.ChunkInfo) (c : SVNetPy.ChunkInfo) :
    (SVNetPy.markStep t P S c).file_id = t.file_id ∧
    (SVNetPy.markStep t P S c).file_name = t.file_name ∧
    (SVNetPy.markStep t P S c).file_size = t.file_size ∧
    (SVNetPy.markStep t P S c).source_node_id = t.source_node_id ∧
    (SVNetPy.markStep t P S c).chunk_size = t.chunk_size := by
  rw [SVNetPy.markStep]
  split <;> exact ⟨rfl, rfl, rfl, rfl, rfl⟩

/-- Success of `StorageNode.process_chunk_transfer` when asked for a
pending chunk `c` (with chunk ids unique, the first pending match is `c`
itself): exactly `c` is marked, giving `markStep`. -/
theorem process_chunk_success (tnode : SVNetPy.StorageNode)
    (heap : SVNetPy.Heap) (fid src : String) (t : SVNetPy.FileTransfer)
    (P S : List SVNetPy.ChunkInfo) (c : SVNetPy.ChunkInfo)
    (hmem : fid ∈ tnode.active_transfers)
    (hheap : findVal fid heap = some t)
    (hchunks : t.chunks = P ++ c :: S)
    (hP : ∀ p ∈ P, p.chunk_id ≠ c.chunk_id)
    (hc : c.status ≠ SVNetPy.TransferStatus.completed) :
    tnode.process_chunk_transfer heap fid c.chunk_id src =
      (true, setVal fid (SVNetPy.markStep t P S c) heap) := by
  rw [SVNetPy.StorageNode.process_chunk_transfer, if_pos hmem, hheap]
  simp only
  rw [hchunks, findMarkChunk_mark c hc P S hP]
  simp only
  rw [SVNetPy.markStep]
  by_cases hpc : SVNetPy.pendingCount
      (P ++ { c with status := SVNetPy.TransferStatus.completed } :: S) = 0
  · rw [if_pos ((all_completed_iff _).mpr hpc), if_pos hpc]
  · rw [if_neg (fun hall => hpc ((all_completed_iff _).mp hall)), if_neg hpc]

/-- The chunk loop of `process_file_transfer`, characterized: starting
at index `P.length` with `t.chunks = P ++ S` and `count` chunks already
transferred, the loop never aborts, marks exactly the first
`min (k - count) (pending S)` pending chunks of `S` in ascending index
order, and flips the transfer's status to completed exactly when it
marked at least one chunk and none remains pending. -/
theorem loopChunks_spec (tnode : SVNetPy.StorageNode) (fid src : String)
    (k : Nat) :
    ∀ (S P : List SVNetPy.ChunkInfo) (t : SVNetPy.FileTransfer)
      (heap : SVNetPy.Heap) (count : Nat),
      findVal fid heap = some t →
      t.chunks = P ++ S →
      (t.chunks.map fun c => c.chunk_id).Nodup →
      fid ∈ tnode.active_transfers →
      count ≤ k →
      ∃ heap',
        SVNetPy.loopChunks tnode fid src k S.length P.length count heap =
          (count + (SVNetPy.markFirst (k - count) S).1, heap', false) ∧
        findVal fid heap' = some
          { t with
              chunks := P ++ (SVNetPy.markFirst (k - count) S).2,
              status :=
                if 0 < (SVNetPy.markFirst (k - count) S).1 ∧
                    SVNetPy.pendingCount
                      (P ++ (SVNetPy.markFirst (k - count) S).2) = 0 then
                  SVNetPy.TransferStatus.completed
                else t.status } ∧
        (∀ key, key ≠ fid → findVal key heap' = findVal key heap) := by
  intro S
  induction S with
  | nil =>
    intro P t heap count h1 h2 h3 h4 h5
    rw [List.append_nil] at h2
    refine ⟨heap, ?_, ?_, fun key hk => rfl⟩
    · show (count, heap, false) = _
      have he : SVNetPy.markFirst (k - count) [] = (0, []) := rfl
      rw [he]
      simp
    · have he : SVNetPy.markFirst (k - count) ([] : List SVNetPy.ChunkInfo) =
          (0, []) := rfl
      rw [he]
      simp only [List.append_nil]
      rw [if_neg (by simp)]
      rw [← h2]
      exact h1
  | cons c S' ih =>
    intro P t heap count h1 h2 h3 h4 h5
    have hidx : t.chunks[P.length]? = some c := by
      rw [h2, List.getElem?_append_right (Nat.le_refl P.length)]
      simp
    rw [List.length_cons, SVNetPy.loopChunks, h1]
    simp only
    rw [hidx]
    simp only
    by_cases hcond : c.status ≠ SVNetPy.TransferStatus.completed ∧ count < k
    · rw [if_pos hcond]
      have hP : ∀ p ∈ P, p.chunk_id ≠ c.chunk_id := by
        intro p hp
        rw [h2, List.map_append, List.nodup_append] at h3
        intro hcontra
        exact h3.2.2 (List.mem_map_of_mem _ hp)
          (by rw [List.map_cons, ← hcontra]; exact List.mem_cons_self _ _)
      have hpcs := process_chunk_success tnode heap fid src t P S' c h4 h1 h2
        hP hcond.1
      rw [hpcs]
      have hfst : (true, setVal fid (SVNetPy.markStep t P S' c) heap).1 =
          true := rfl
      rw [if_pos hfst]
      have hsnd : (true, setVal fid (SVNetPy.markStep t P S' c) heap).2 =
          setVal fid (SVNetPy.markStep t P S' c) heap := rfl
      rw [hsnd]
      have ht₁chunks : (SVNetPy.markStep t P S' c).chunks =
          (P ++ [{ c with status := SVNetPy.TransferStatus.completed }]) ++ S' := by
        rw [markStep_chunks]
        simp
      have ht₁ids :
          ((SVNetPy.markStep t P S' c).chunks.map fun cc => cc.chunk_id).Nodup := by
        rw [markStep_chunks]
        have he : ((P ++ { c with status := SVNetPy.TransferStatus.completed } ::
            S').map fun cc => cc.chunk_id) =
            (t.chunks.map fun cc => cc.chunk_id) := by
          rw [h2]
          simp
        rw [he]
        exact h3
      obtain ⟨heap'', hloop, hfind, hframe⟩ :=
        ih (P ++ [{ c with status := SVNetPy.TransferStatus.completed }])
          (SVNetPy.markStep t P S' c) (setVal fid (SVNetPy.markStep t P S' c) heap)
          (count + 1) (findVal_setVal_self fid _ heap) ht₁chunks ht₁ids h4
          (by omega)
      simp only [List.length_append, List.length_cons, List.length_nil,
        Nat.zero_add] at hloop
      rw [hloop]
      have hmf : SVNetPy.markFirst (k - count) (c :: S') =
          ((SVNetPy.markFirst (k - (count + 1)) S').1 + 1,
            { c with status := SVNetPy.TransferStatus.completed } ::
              (SVNetPy.markFirst (k - (count + 1)) S').2) := by
        rw [SVNetPy.markFirst, if_pos hcond.1, if_pos (by omega)]
        have he : k - count - 1 = k - (count + 1) := by omega
        rw [he]
      refine ⟨heap'', ?_, ?_, ?_⟩
      · rw [hmf]
        show _ = (count + ((SVNetPy.markFirst (k - (count + 1)) S').1 + 1),
          heap'', false)
        have he : count + ((SVNetPy.markFirst (k - (count + 1)) S').1 + 1) =
            count + 1 + (SVNetPy.markFirst (k - (count + 1)) S').1 := by omega
        rw [he]
      · rw [hfind, hmf]
        simp only
        obtain ⟨hf1, hf2, hf3, hf4, hf5⟩ := markStep_fields t P S' c
        rw [hf1, hf2, hf3, hf4, hf5]
        have hch : (P ++ [{ c with status := SVNetPy.TransferStatus.completed }]) ++
            (SVNetPy.markFirst (k - (count + 1)) S').2 =
            P ++ { c with status := SVNetPy.TransferStatus.completed } ::
              (SVNetPy.markFirst (k - (count + 1)) S').2 := by
          simp
        rw [hch]
        by_cases hpc0 : SVNetPy.pendingCount
            (P ++ { c with status := SVNetPy.TransferStatus.completed } ::
              (SVNetPy.markFirst (k - (count + 1)) S').2) = 0
        · have hcondR : 0 < (SVNetPy.markFirst (k - (count + 1)) S').1 + 1 ∧
              SVNetPy.pendingCount
                (P ++ { c with status := SVNetPy.TransferStatus.completed } ::
                  (SVNetPy.markFirst (k - (count + 1)) S').2) = 0 :=
            ⟨Nat.succ_pos _, hpc0⟩
          rw [if_pos hcondR]
          by_cases hm' : 0 < (SVNetPy.markFirst (k - (count + 1)) S').1
          · have hcondL : 0 < (SVNetPy.markFirst (k - (count + 1)) S').1 ∧
                SVNetPy.pendingCount
                  (P ++ { c with status := SVNetPy.TransferStatus.completed } ::
                    (SVNetPy.markFirst (k - (count + 1)) S').2) = 0 :=
              ⟨hm', hpc0⟩
            rw [if_pos hcondL]
          · have hcondL : ¬(0 < (SVNetPy.markFirst (k - (count + 1)) S').1 ∧
                SVNetPy.pendingCount
                  (P ++ { c with status := SVNetPy.TransferStatus.completed } ::
                    (SVNetPy.markFirst (k - (count + 1)) S').2) = 0) :=
              fun hand => hm' hand.1
            rw [if_neg hcondL]
            have hm'0 : (SVNetPy.markFirst (k - (count + 1)) S').1 = 0 := by
              omega
            have hmf2 : (SVNetPy.markFirst (k - (count + 1)) S').2 = S' := by
              have hcnt := markFirst_count (k - (count + 1)) S'
              rw [hm'0] at hcnt
              by_cases hb : k - (count + 1) = 0
              · rw [hb, markFirst_zero]
              · have hps : SVNetPy.pendingCount S' = 0 := by omega
                rw [markFirst_no_pending _ _ hps]
            rw [hmf2] at hpc0
            rw [markStep_status_done t P S' c hpc0]
        · have hcondR : ¬(0 < (SVNetPy.markFirst (k - (count + 1)) S').1 + 1 ∧
              SVNetPy.pendingCount
                (P ++ { c with status := SVNetPy.TransferStatus.completed } ::
                  (SVNetPy.markFirst (k - (count + 1)) S').2) = 0) :=
            fun hand => hpc0 hand.2
          have hcondL : ¬(0 < (SVNetPy.markFirst (k - (count + 1)) S').1 ∧
              SVNetPy.pendingCount
                (P ++ { c with status := SVNetPy.TransferStatus.completed } ::
                  (SVNetPy.markFirst (k - (count + 1)) S').2) = 0) :=
            fun hand => hpc0 hand.2
          rw [if_neg hcondR, if_neg hcondL]
          have hbig : ¬ SVNetPy.pendingCount
              (P ++ { c with status := SVNetPy.TransferStatus.completed } ::
                S') = 0 := by
            have e2 := pendingCount_append P
              ({ c with status := SVNetPy.TransferStatus.completed } ::
                (SVNetPy.markFirst (k - (count + 1)) S').2)
            have e1 := pendingCount_append P
              ({ c with status := SVNetPy.TransferStatus.completed } :: S')
            have e3 := pendingCount_cons
              { c with status := SVNetPy.TransferStatus.completed } S'
            have e4 := pendingCount_cons
              { c with status := SVNetPy.TransferStatus.completed }
              (SVNetPy.markFirst (k - (count + 1)) S').2
            have e5 := markFirst_pending (k - (count + 1)) S'
            have e6 := markFirst_count (k - (count + 1)) S'
            omega
          rw [markStep_status_keep t P S' c hbig]
      · intro key hk
        rw [hframe key hk, findVal_setVal_ne key fid _ heap (Ne.symm hk)]
    · rw [if_neg hcond]
      have h2' : t.chunks = (P ++ [c]) ++ S' := by
        rw [h2]
        simp
      obtain ⟨heap'', hloop, hfind, hframe⟩ :=
        ih (P ++ [c]) t heap count h1 h2' h3 h4 h5
      simp only [List.length_append, List.length_cons, List.length_nil,
        Nat.zero_add] at hloop
      rw [hloop]
      rcases not_and_or.mp hcond with hnc | hnk
      · have hmf : SVNetPy.markFirst (k - count) (c :: S') =
            ((SVNetPy.markFirst (k - count) S').1,
              c :: (SVNetPy.markFirst (k - count) S').2) := by
          rw [SVNetPy.markFirst, if_neg hnc]
        refine ⟨heap'', by rw [hmf], ?_, hframe⟩
        rw [hfind, hmf]
        simp only
        have hch : (P ++ [c]) ++ (SVNetPy.markFirst (k - count) S').2 =
            P ++ c :: (SVNetPy.markFirst (k - count) S').2 := by
          simp
        rw [hch]
      · have hz : k - count = 0 := by omega
        have hmf : SVNetPy.markFirst (k - count) (c :: S') = (0, c :: S') := by
          rw [hz, markFirst_zero]
        have hmf' : SVNetPy.markFirst (k - count) S' = (0, S') := by
          rw [hz, markFirst_zero]
        rw [hmf'] at hloop hfind
        refine ⟨heap'', by rw [hmf', hmf], ?_, hframe⟩
        rw [hfind, hmf]
        simp only
        have hch : (P ++ [c]) ++ S' = P ++ c :: S' := by simp
        rw [hch]

theorem mem_removeKey (k : String) (l : List String) (hl : l.Nodup) :
    k ∉ SVNetPy.removeKey k l := by
  induction l with
  | nil => simp [SVNetPy.removeKey]
  | cons x xs ih =>
    rw [SVNetPy.removeKey]
    by_cases hx : x = k
    · rw [if_pos hx]
      subst hx
      exact (List.nodup_cons.mp hl).1
    · rw [if_neg hx]
      intro hmem
      rcases List.mem_cons.mp hmem with h1 | h2
      · exact hx h1.symm
      · exact ih (List.nodup_cons.mp hl).2 h2

/-- Claim C2 counterexample: `storage_virtual_network.py`'s
`process_file_transfer` returns `(0, False)` — not the claimed
`(0, True)` — on an unknown transfer id, and likewise on every repeated
call after a transfer completed (completion removed the id from
`transfer_operations`). -/
theorem C2_advance_counterexample :
    (c2net1.process_file_transfer "a" "b" "nope" 3).1 = (0, false) ∧
    c2run.1 = (1, true) ∧
    (c2run.2.process_file_transfer "a" "b" "f-t0" 3).1 = (0, false) := by
  decide

/-- Claim C2 as amended (`storage_virtual_network.py`): when either node
id is unknown or the transfer id is not in the source's operations map
(in particular, on every repeated call after completion, since
completion deletes the id), `process_file_transfer` returns `(0, False)`
— not `(0, True)` — with the network unchanged.  Otherwise, on a
coherent state, it marks exactly `min(max_chunks, pending)` chunks
completed in ascending index order (`markFirst`), returns that count
together with whether the transfer is now complete, and exactly when the
last pending chunk completes the transfer's status becomes `COMPLETED`
and its id is removed from the active operations map. -/
theorem C2_advance_amended (net : SVNetPy.StorageNetwork)
    (src tgt fid : String) (k : Nat) :
    ((findVal src net.nodes).isNone = true ∨
        (findVal tgt net.nodes).isNone = true ∨ fid ∉ net.opsOf src →
      net.process_file_transfer src tgt fid k = ((0, false), net)) ∧
    (∀ tnode t, (findVal src net.nodes).isSome = true →
      findVal tgt net.nodes = some tnode →
      fid ∈ net.opsOf src →
      (net.opsOf src).Nodup →
      findVal fid net.transfers = some t →
      fid ∈ tnode.active_transfers →
      (t.chunks.map fun c => c.chunk_id).Nodup →
      t.status ≠ SVNetPy.TransferStatus.completed →
      (net.process_file_transfer src tgt fid k).1.1 =
        min k (SVNetPy.pendingCount t.chunks) ∧
      ((net.process_file_transfer src tgt fid k).1.2 = true ↔
        (0 < SVNetPy.pendingCount t.chunks ∧
          SVNetPy.pendingCount t.chunks ≤ k)) ∧
      findVal fid (net.process_file_transfer src tgt fid k).2.transfers =
        some { t with
            chunks := (SVNetPy.markFirst k t.chunks).2,
            status := if 0 < SVNetPy.pendingCount t.chunks ∧
                SVNetPy.pendingCount t.chunks ≤ k then
              SVNetPy.TransferStatus.completed
            else t.status } ∧
      (fid ∈ (net.process_file_transfer src tgt fid k).2.opsOf src ↔
        ¬(0 < SVNetPy.pendingCount t.chunks ∧
          SVNetPy.pendingCount t.chunks ≤ k))) := by
  constructor
  · intro h
    rw [SVNetPy.StorageNetwork.process_file_transfer, if_pos h]
  · intro tnode t hsrc htgt hops hopsd hheap hact hids hstat
    have hguard : ¬((findVal src net.nodes).isNone = true ∨
        (findVal tgt net.nodes).isNone = true ∨ fid ∉ net.opsOf src) := by
      intro h
      rcases h with h | h | h
      · rw [Option.isNone_iff_eq_none] at h
        rw [h] at hsrc
        simp at hsrc
      · rw [Option.isNone_iff_eq_none] at h
        rw [htgt] at h
        simp at h
      · exact h hops
    obtain ⟨heap', hloop, hfind, hframe⟩ :=
      loopChunks_spec tnode fid src k t.chunks [] t net.transfers 0 hheap
        (by simp) hids hact (Nat.zero_le k)
    simp only [List.length_nil, Nat.sub_zero, Nat.zero_add,
      List.nil_append] at hloop hfind
    have hm := markFirst_count k t.chunks
    have hp := markFirst_pending k t.chunks
    by_cases hcase : 0 < SVNetPy.pendingCount t.chunks ∧
        SVNetPy.pendingCount t.chunks ≤ k
    · have hC : 0 < (SVNetPy.markFirst k t.chunks).1 ∧
          SVNetPy.pendingCount (SVNetPy.markFirst k t.chunks).2 = 0 := by
        omega
      rw [if_pos hC] at hfind
      have hproc : net.process_file_transfer src tgt fid k =
          (((SVNetPy.markFirst k t.chunks).1, true),
            { net with
                transfers := heap',
                transfer_operations := setVal src
                  (SVNetPy.removeKey fid (net.opsOf src))
                  net.transfer_operations }) := by
        rw [SVNetPy.StorageNetwork.process_file_transfer, if_neg hguard, htgt,
          hheap]
        simp only
        rw [hloop]
        simp only
        rw [hfind]
        simp
      refine ⟨?_, ?_, ?_, ?_⟩
      · rw [hproc, hm]
      · rw [hproc]
        simp [hcase]
      · rw [hproc]
        simp only
        rw [if_pos hcase]
        exact hfind
      · rw [hproc]
        have hops' : ({ net with
            transfers := heap',
            transfer_operations := setVal src
              (SVNetPy.removeKey fid (net.opsOf src))
              net.transfer_operations } : SVNetPy.StorageNetwork).opsOf src =
            SVNetPy.removeKey fid (net.opsOf src) := by
          rw [SVNetPy.StorageNetwork.opsOf]
          simp only
          rw [findVal_setVal_self]
          rfl
        rw [hops']
        exact iff_of_false (mem_removeKey fid _ hopsd) (not_not_intro hcase)
    · have hC : ¬(0 < (SVNetPy.markFirst k t.chunks).1 ∧
          SVNetPy.pendingCount (SVNetPy.markFirst k t.chunks).2 = 0) := by
        omega
      rw [if_neg hC] at hfind
      have hproc : net.process_file_transfer src tgt fid k =
          (((SVNetPy.markFirst k t.chunks).1, false),
            { net with transfers := heap' }) := by
        rw [SVNetPy.StorageNetwork.process_file_transfer, if_neg hguard, htgt,
          hheap]
        simp only
        rw [hloop]
        simp only
        rw [hfind]
        simp [hstat]
      refine ⟨?_, ?_, ?_, ?_⟩
      · rw [hproc, hm]
      · rw [hproc]
        simp [hcase]
      · rw [hproc]
        simp only
        rw [if_neg hcase]
        exact hfind
      · rw [hproc]
        exact iff_of_true hops hcase

theorem C2_advance_amended_witness :
    c2net1.process_file_transfer "a" "b" "nope" 3 = ((0, false), c2net1) ∧
    (c2net1.process_file_transfer "a" "b" "f-t0" 3).1.1 =
      min 3 (SVNetPy.pendingCount c2t.chunks) ∧
    ((c2net1.process_file_transfer "a" "b" "f-t0" 3).1.2 = true ↔
      (0 < SVNetPy.pendingCount c2t.chunks ∧
        SVNetPy.pendingCount c2t.chunks ≤ 3)) := by
  have H2 := (C2_advance_amended c2net1 "a" "b" "f-t0" 3).2 c2tnode c2t
    (by decide) (by decide) (by decide) (by decide) (by decide) (by decide)
    (by decide) (by decide)
  have H1 := (C2_advance_amended c2net1 "a" "b" "nope" 3).1
    (Or.inr (Or.inr (by decide)))
  exact ⟨H1, H2.1, H2.2.1⟩
